import Mathlib

/-!
# The sandbox policy orchestrator (`core/policy.cc`)

A shallow embedding of `winc::Policy`: the lazily cached accessors
(`GetLogon`, `GetRestrictedToken`, `GetDesktop`, `MakeJobObject`) and the
mutators (`SetLogon`, `AddRestrictSid`, `RemoveRestrictSid`).

The collaborators (`Logon`, `AlternateDesktop`, `JobObject`) are external.
Their answers are given by an environment `Env` whose functions see the whole
history of events, so every behaviour of the collaborators is covered by
quantifying over `Env`.  Every collaborator call, every construction and every
destruction performed by the orchestrator is appended to the `World` trace,
together with the answer it got.
-/

namespace winc

/-! ## Plain data -/

/-- Modelled from the spec: the `ResultCode` enumeration (its declaration is
not among the sources).  Every failure is a result code; the policy only tells
`WINC_OK` from the other codes. -/
inductive ResultCode
  | WINC_OK
  | WINC_ERROR (code : Nat)
  deriving DecidableEq, Repr

/-- Win32 `DWORD`; casts to it are written `% 2 ^ 32` where they occur. -/
abbrev DWORD := Nat

/-- Win32 `HANDLE` value. -/
abbrev HANDLE := Nat

/-- Modelled from the spec: the class `Sid` (its declaration is not among the
sources), a security-identifier value compared structurally; `data()` gives
its bytes. -/
structure Sid where
  data : List Nat
  deriving DecidableEq, Repr

/-- Win32 `SID_AND_ATTRIBUTES`.  The `Sid` member is a pointer to the bytes of
a security identifier; `none` is the null pointer of a value-initialised
element. -/
structure SID_AND_ATTRIBUTES where
  Sid : Option winc.Sid
  Attributes : DWORD
  deriving DecidableEq, Repr

/-- Win32 `JOBOBJECT_BASIC_LIMIT_INFORMATION`. -/
structure JOBOBJECT_BASIC_LIMIT_INFORMATION where
  PerProcessUserTimeLimit : Nat
  PerJobUserTimeLimit : Nat
  LimitFlags : DWORD
  MinimumWorkingSetSize : Nat
  MaximumWorkingSetSize : Nat
  ActiveProcessLimit : DWORD
  Affinity : Nat
  PriorityClass : DWORD
  SchedulingClass : DWORD
  deriving DecidableEq, Repr

/-- Win32 `IO_COUNTERS`. -/
structure IO_COUNTERS where
  ReadOperationCount : Nat
  WriteOperationCount : Nat
  OtherOperationCount : Nat
  ReadTransferCount : Nat
  WriteTransferCount : Nat
  OtherTransferCount : Nat
  deriving DecidableEq, Repr

/-- Win32 `JOBOBJECT_EXTENDED_LIMIT_INFORMATION`. -/
structure JOBOBJECT_EXTENDED_LIMIT_INFORMATION where
  BasicLimitInformation : JOBOBJECT_BASIC_LIMIT_INFORMATION
  IoInfo : IO_COUNTERS
  ProcessMemoryLimit : Nat
  JobMemoryLimit : Nat
  PeakProcessMemoryUsed : Nat
  PeakJobMemoryUsed : Nat
  deriving DecidableEq, Repr

/-- Win32 `JOBOBJECT_BASIC_UI_RESTRICTIONS`. -/
structure JOBOBJECT_BASIC_UI_RESTRICTIONS where
  UIRestrictionsClass : DWORD
  deriving DecidableEq, Repr

/-- The value of `JOBOBJECT_EXTENDED_LIMIT_INFORMATION limit = {}`. -/
def JOBOBJECT_EXTENDED_LIMIT_INFORMATION.zero : JOBOBJECT_EXTENDED_LIMIT_INFORMATION :=
  { BasicLimitInformation :=
      { PerProcessUserTimeLimit := 0, PerJobUserTimeLimit := 0, LimitFlags := 0,
        MinimumWorkingSetSize := 0, MaximumWorkingSetSize := 0, ActiveProcessLimit := 0,
        Affinity := 0, PriorityClass := 0, SchedulingClass := 0 },
    IoInfo :=
      { ReadOperationCount := 0, WriteOperationCount := 0, OtherOperationCount := 0,
        ReadTransferCount := 0, WriteTransferCount := 0, OtherTransferCount := 0 },
    ProcessMemoryLimit := 0, JobMemoryLimit := 0,
    PeakProcessMemoryUsed := 0, PeakJobMemoryUsed := 0 }

/-- The value of `JOBOBJECT_BASIC_UI_RESTRICTIONS limit = {}`. -/
def JOBOBJECT_BASIC_UI_RESTRICTIONS.zero : JOBOBJECT_BASIC_UI_RESTRICTIONS :=
  { UIRestrictionsClass := 0 }

/-! ## Windows SDK constants used by the orchestrator -/

def SECURITY_MANDATORY_LOW_RID : DWORD := 0x1000
def DESKTOP_READOBJECTS : DWORD := 0x0001
def DESKTOP_CREATEWINDOW : DWORD := 0x0002
def DESKTOP_WRITEOBJECTS : DWORD := 0x0080
def DESKTOP_SWITCHDESKTOP : DWORD := 0x0100
def READ_CONTROL : DWORD := 0x00020000
def WRITE_DAC : DWORD := 0x00040000
def WRITE_OWNER : DWORD := 0x00080000
def GENERIC_READ : DWORD := 0x80000000
def GENERIC_WRITE : DWORD := 0x40000000
def GENERIC_EXECUTE : DWORD := 0x20000000
def SE_WINDOW_OBJECT : Nat := 7

/-! ## Heap objects

An object is identified by the address it was constructed at.  The allocator
of the model never hands out an address twice, so an address also tells an
object from every object constructed before it, destroyed or not. -/

/-- A `Logon` object (a `CurrentLogon` made by `GetLogon`, or any `Logon`
handed over through `SetLogon`).  The class is declared in `core/logon.h`,
not among the sources; what its member functions answer is given by `Env`. -/
structure Logon where
  addr : Nat
  deriving DecidableEq, Repr

/-- A `DefaultDesktop` object. -/
structure DefaultDesktop where
  addr : Nat
  deriving DecidableEq, Repr

/-- An `AlternateDesktop` object. -/
structure AlternateDesktop where
  addr : Nat
  deriving DecidableEq, Repr

/-- A `JobObject` object. -/
structure JobObject where
  addr : Nat
  deriving DecidableEq, Repr

/-- The `Desktop *` written by `GetDesktop`: it points to the default desktop
or to the alternate desktop. -/
inductive Desktop
  | ofDefault (d : DefaultDesktop)
  | ofAlternate (d : AlternateDesktop)
  deriving DecidableEq, Repr

/-! ## Events and the world -/

/-- What the orchestrator does to the outside: constructions, destructions and
collaborator calls, the latter with the answer received. -/
inductive Event
  | new_CurrentLogon (logon : Logon)
  | delete_Logon (logon : Logon)
  | Logon_Init (logon : Logon) (level : DWORD) (rc : ResultCode)
  | Logon_FilterToken (logon : Logon) (sids : List SID_AND_ATTRIBUTES) (count : DWORD)
      (rc : ResultCode) (token : HANDLE)
  | Logon_GrantAccess (logon : Logon) (object : HANDLE) (object_type : Nat) (access : DWORD)
      (rc : ResultCode)
  | release_token (token : HANDLE)
  | new_DefaultDesktop (d : DefaultDesktop)
  | new_AlternateDesktop (d : AlternateDesktop)
  | delete_AlternateDesktop (d : AlternateDesktop)
  | AlternateDesktop_Init (d : AlternateDesktop) (access : DWORD) (rc : ResultCode)
  | new_JobObject (job : JobObject)
  | delete_JobObject (job : JobObject)
  | JobObject_Init (job : JobObject) (rc : ResultCode)
  | JobObject_SetBasicLimit (job : JobObject) (limit : JOBOBJECT_EXTENDED_LIMIT_INFORMATION)
      (rc : ResultCode)
  | JobObject_SetUILimit (job : JobObject) (limit : JOBOBJECT_BASIC_UI_RESTRICTIONS)
      (rc : ResultCode)
  deriving DecidableEq, Repr

/-- Modelled from the spec: the member functions of the collaborators
(`core/logon.h`, `core/desktop.h` and `core/job_object.h` are not among the
sources), with the operations of the collaborator contracts.  Each answer may
depend on the whole history of events so far and on the arguments of the
call; `FilterToken` answers with a result code and the token it stored. -/
structure Env where
  Logon_Init : List Event → Logon → DWORD → ResultCode
  Logon_FilterToken : List Event → Logon → List SID_AND_ATTRIBUTES → DWORD → ResultCode × HANDLE
  Logon_GrantAccess : List Event → Logon → HANDLE → Nat → DWORD → ResultCode
  AlternateDesktop_Init : List Event → AlternateDesktop → DWORD → ResultCode
  GetDesktopHandle : List Event → AlternateDesktop → HANDLE
  GetWinstaHandle : List Event → AlternateDesktop → HANDLE
  JobObject_Init : List Event → JobObject → ResultCode
  JobObject_SetBasicLimit : List Event → JobObject → JOBOBJECT_EXTENDED_LIMIT_INFORMATION → ResultCode
  JobObject_SetUILimit : List Event → JobObject → JOBOBJECT_BASIC_UI_RESTRICTIONS → ResultCode

/-- The outside of the Policy: the history of events and the next free heap
address. -/
structure World where
  trace : List Event
  next : Nat
  deriving DecidableEq, Repr

/-- Append one event to the history. -/
def World.emit (w : World) (e : Event) : World :=
  { w with trace := w.trace ++ [e] }

/-- Take the next free heap address. -/
def World.alloc (w : World) : World :=
  { w with next := w.next + 1 }

/-! ## The Policy state -/

/-- Modelled from the spec: the data members of `winc::Policy` (declared in
`core/policy.h`, which is not among the sources), under the names
`core/policy.cc` uses.  Each owner (`unique_ptr`, and the owning handle
`restricted_token_`) is an optionally owned object: `none` is the empty owner,
and an owner that was given an object or a handle holds it. -/
structure Policy where
  logon_ : Option Logon
  restricted_sids_ : List Sid
  restricted_token_ : Option HANDLE
  use_desktop_ : Bool
  default_desktop_ : Option DefaultDesktop
  alternate_desktop_ : Option AlternateDesktop
  job_basic_limit_ : DWORD
  job_ui_limit_ : DWORD
  deriving DecidableEq, Repr

/-- Modelled from the spec: the constructor of `Policy` (declared in
`core/policy.h`, which is not among the sources).  A Policy is created with
all caches empty and no restriction entry; the desktop mode and the job limits
are configuration values. -/
def Policy.create (use_desktop : Bool) (job_basic_limit job_ui_limit : DWORD) : Policy :=
  { logon_ := none, restricted_sids_ := [], restricted_token_ := none,
    use_desktop_ := use_desktop, default_desktop_ := none, alternate_desktop_ := none,
    job_basic_limit_ := job_basic_limit, job_ui_limit_ := job_ui_limit }

/-- What a `ResultCode f(T *out)` member function leaves behind: the code it
returns, the value stored through `out` (`none` when nothing was stored), the
Policy and the world after the call. -/
structure Ret (α : Type) where
  rc : ResultCode
  out : Option α
  policy : Policy
  world : World

/-- The effect of `unique_ptr<Logon>` giving up its object. -/
def release_logon (o : Option Logon) (w : World) : World :=
  match o with
  | none => w
  | some l => w.emit (Event.delete_Logon l)

/-- The effect of `restricted_token_.reset()`. -/
def release_restricted_token (o : Option HANDLE) (w : World) : World :=
  match o with
  | none => w
  | some h => w.emit (Event.release_token h)

/-- The effect of `alternate_desktop_.reset()`. -/
def release_alternate_desktop (o : Option AlternateDesktop) (w : World) : World :=
  match o with
  | none => w
  | some d => w.emit (Event.delete_AlternateDesktop d)

/-! ## `std::find`, `std::remove` and `vector::erase` on a buffer -/

/-- What a `const Sid &` argument refers to.  `RemoveRestrictSid` hands its
reference on to `std::remove`, which takes it by reference as well, so every
comparison reads the object referred to at that moment: an object outside
`restricted_sids_`, whose value stays what it is, or the element of
`restricted_sids_` at position `k`, whose value is whatever the loop has put
at that position by then (the argument aliases the vector). -/
inductive SidRef
  | outside (sid : Sid)
  | element (k : Nat)
  deriving DecidableEq, Repr

/-- The value read through the reference while the vector holds `buf`
(`none` for a position that is not in the vector). -/
def SidRef.read (value : SidRef) (buf : List Sid) : Option Sid :=
  match value with
  | SidRef.outside sid => some sid
  | SidRef.element k => buf[k]?

/-- The loop of `std::find(first, last, value)`: advance `first` until it is
`last` or points to an element equal to `value`, read through the reference.
`fuel` bounds the number of steps; `last - first` is enough. -/
def std_find_loop (buf : List Sid) (last : Nat) (value : SidRef) : Nat → Nat → Nat
  | 0, first => first
  | fuel + 1, first =>
    if first = last then first
    else if buf[first]? = value.read buf then first
    else std_find_loop buf last value fuel (first + 1)

/-- The call `std::find(first, last, value)` on positions of `buf`. -/
def std_find (buf : List Sid) (first last : Nat) (value : SidRef) : Nat :=
  std_find_loop buf last value (last - first) first

/-- The loop of `std::remove`:
`for (i = first; ++i != last;) if (!(*i == value)) *first++ = std::move(*i);`
entered with `i` at the position before the increment.  The result is the
buffer and the final `first`.  `fuel` bounds the number of iterations;
`last - i` is enough.  `value` is read through the reference in the buffer
as it is at each comparison, so an assignment to the position it refers to
changes what later elements are compared with.  A moved-from slot is never
read again before it is overwritten (neither through `i`, which only moves
on, nor through `value`: an element equal to itself is not moved), so it
keeps its old value here. -/
def std_remove_loop (value : SidRef) (last : Nat) :
    Nat → List Sid → Nat → Nat → List Sid × Nat
  | 0, buf, first, _ => (buf, first)
  | fuel + 1, buf, first, i =>
    if i + 1 = last then (buf, first)
    else
      match buf[i + 1]? with
      | some x =>
        if some x ≠ value.read buf then
          std_remove_loop value last fuel (buf.set first x) (first + 1) (i + 1)
        else std_remove_loop value last fuel buf first (i + 1)
      -- not reached when `last` is the size of `buf`
      | none => (buf, first)

/-- The call `std::remove(buf.begin(), buf.end(), value)`: the elements not
equal to `value` are shifted to the front; the result is the buffer (of the
same size) and the position of the new logical end. -/
def std_remove (buf : List Sid) (value : SidRef) : List Sid × Nat :=
  let last := buf.length
  let first := std_find buf 0 last value
  if first ≠ last then std_remove_loop value last (last - first) buf first first
  else (buf, first)

/-- The call `v.erase(first, last)` on positions of the vector `v`. -/
def vector_erase (v : List Sid) (first last : Nat) : List Sid :=
  v.take first ++ v.drop last

/-! ## The member functions of `Policy` -/

/-- `ResultCode Policy::GetLogon(Logon **out_logon)`. -/
def GetLogon (env : Env) (p : Policy) (w : World) : Ret Logon :=
  match p.logon_ with
  | none =>
    let logon : Logon := ⟨w.next⟩
    let w1 := w.alloc.emit (Event.new_CurrentLogon logon)
    let rc := env.Logon_Init w1.trace logon SECURITY_MANDATORY_LOW_RID
    let w2 := w1.emit (Event.Logon_Init logon SECURITY_MANDATORY_LOW_RID rc)
    if rc ≠ ResultCode.WINC_OK then
      ⟨rc, none, p, w2.emit (Event.delete_Logon logon)⟩
    else
      ⟨ResultCode.WINC_OK, some logon, { p with logon_ := some logon }, w2⟩
  | some l => ⟨ResultCode.WINC_OK, some l, p, w⟩

/-- `void Policy::SetLogon(std::unique_ptr<Logon> &logon)`.  The argument may
be an empty pointer; the pointer of the caller is left empty. -/
def SetLogon (logon : Option Logon) (p : Policy) (w : World) : Policy × World :=
  let w1 := release_logon p.logon_ w
  let w2 := release_restricted_token p.restricted_token_ w1
  let w3 := release_alternate_desktop p.alternate_desktop_ w2
  ({ p with logon_ := logon, restricted_token_ := none, alternate_desktop_ := none }, w3)

/-- `void Policy::AddRestrictSid(const Sid &sid)`. -/
def AddRestrictSid (sid : Sid) (p : Policy) (w : World) : Policy × World :=
  ({ p with restricted_sids_ := p.restricted_sids_ ++ [sid], restricted_token_ := none },
   release_restricted_token p.restricted_token_ w)

/-- `void Policy::RemoveRestrictSid(const Sid &sid)`.  The reference is handed
to `std::remove` as it is; it may refer to an element of `restricted_sids_`. -/
def RemoveRestrictSid (sid : SidRef) (p : Policy) (w : World) : Policy × World :=
  let r := std_remove p.restricted_sids_ sid
  ({ p with restricted_sids_ := vector_erase r.1 r.2 r.1.length, restricted_token_ := none },
   release_restricted_token p.restricted_token_ w)

/-- The loop of `GetRestrictedToken` that fills `sids_to_restrict`:
`for (unsigned int i = 0; i < restricted_sids_.size(); ++i)`.  The index is a
32-bit unsigned integer.  `fuel` bounds the number of iterations; the size of
the vector is enough whenever it is below `2 ^ 32` (from there on the index
wraps before reaching the size). -/
def fill_sids_to_restrict (restricted_sids_ : List Sid) :
    Nat → Nat → List SID_AND_ATTRIBUTES → List SID_AND_ATTRIBUTES
  | 0, _, out => out
  | fuel + 1, i, out =>
    match restricted_sids_[i]? with
    | some s =>
      fill_sids_to_restrict restricted_sids_ fuel ((i + 1) % 2 ^ 32)
        (out.set i { Sid := some s, Attributes := 0 })
    | none => out

/-- The vector `sids_to_restrict` that `GetRestrictedToken` builds: created
with `restricted_sids_.size()` value-initialised elements, then filled by the
loop. -/
def sids_to_restrict (restricted_sids_ : List Sid) : List SID_AND_ATTRIBUTES :=
  fill_sids_to_restrict restricted_sids_ restricted_sids_.length 0
    (List.replicate restricted_sids_.length { Sid := none, Attributes := 0 })

/-- `ResultCode Policy::GetRestrictedToken(HANDLE *out_token)`. -/
def GetRestrictedToken (env : Env) (p : Policy) (w : World) : Ret HANDLE :=
  match p.restricted_token_ with
  | none =>
    let g := GetLogon env p w
    if g.rc ≠ ResultCode.WINC_OK then ⟨g.rc, none, g.policy, g.world⟩
    else
      match g.out with
      -- not reached: `GetLogon` stores the logon whenever it returns `WINC_OK`
      | none => ⟨g.rc, none, g.policy, g.world⟩
      | some logon =>
        let sids := sids_to_restrict g.policy.restricted_sids_
        let count : DWORD := sids.length % 2 ^ 32
        let f := env.Logon_FilterToken g.world.trace logon sids count
        let w1 := g.world.emit (Event.Logon_FilterToken logon sids count f.1 f.2)
        if f.1 ≠ ResultCode.WINC_OK then ⟨f.1, none, g.policy, w1⟩
        else
          ⟨ResultCode.WINC_OK, some f.2, { g.policy with restricted_token_ := some f.2 }, w1⟩
  | some token => ⟨ResultCode.WINC_OK, some token, p, w⟩

/-- The access mask `GetDesktop` passes to `AlternateDesktop::Init`. -/
def ALTERNATE_DESKTOP_ACCESS : DWORD :=
  DESKTOP_READOBJECTS ||| DESKTOP_CREATEWINDOW ||| DESKTOP_WRITEOBJECTS |||
    DESKTOP_SWITCHDESKTOP ||| READ_CONTROL ||| WRITE_DAC ||| WRITE_OWNER

/-- The access mask `GetDesktop` passes to both `GrantAccess` calls. -/
def GRANTED_ACCESS : DWORD :=
  GENERIC_READ ||| GENERIC_WRITE ||| GENERIC_EXECUTE

/-- `ResultCode Policy::GetDesktop(Desktop **out_desktop)`. -/
def GetDesktop (env : Env) (p : Policy) (w : World) : Ret Desktop :=
  if !p.use_desktop_ then
    match p.default_desktop_ with
    | none =>
      let d : DefaultDesktop := ⟨w.next⟩
      ⟨ResultCode.WINC_OK, some (Desktop.ofDefault d), { p with default_desktop_ := some d },
        w.alloc.emit (Event.new_DefaultDesktop d)⟩
    | some d => ⟨ResultCode.WINC_OK, some (Desktop.ofDefault d), p, w⟩
  else
    match p.alternate_desktop_ with
    | none =>
      let g := GetLogon env p w
      if g.rc ≠ ResultCode.WINC_OK then ⟨g.rc, none, g.policy, g.world⟩
      else
        match g.out with
        -- not reached: `GetLogon` stores the logon whenever it returns `WINC_OK`
        | none => ⟨g.rc, none, g.policy, g.world⟩
        | some logon =>
          let d : AlternateDesktop := ⟨g.world.next⟩
          let w1 := g.world.alloc.emit (Event.new_AlternateDesktop d)
          let rc1 := env.AlternateDesktop_Init w1.trace d ALTERNATE_DESKTOP_ACCESS
          let w2 := w1.emit (Event.AlternateDesktop_Init d ALTERNATE_DESKTOP_ACCESS rc1)
          if rc1 ≠ ResultCode.WINC_OK then
            ⟨rc1, none, g.policy, w2.emit (Event.delete_AlternateDesktop d)⟩
          else
            let hd := env.GetDesktopHandle w2.trace d
            let rc2 := env.Logon_GrantAccess w2.trace logon hd SE_WINDOW_OBJECT GRANTED_ACCESS
            let w3 := w2.emit (Event.Logon_GrantAccess logon hd SE_WINDOW_OBJECT GRANTED_ACCESS rc2)
            if rc2 ≠ ResultCode.WINC_OK then
              ⟨rc2, none, g.policy, w3.emit (Event.delete_AlternateDesktop d)⟩
            else
              let hw := env.GetWinstaHandle w3.trace d
              let rc3 := env.Logon_GrantAccess w3.trace logon hw SE_WINDOW_OBJECT GRANTED_ACCESS
              let w4 :=
                w3.emit (Event.Logon_GrantAccess logon hw SE_WINDOW_OBJECT GRANTED_ACCESS rc3)
              if rc3 ≠ ResultCode.WINC_OK then
                ⟨rc3, none, g.policy, w4.emit (Event.delete_AlternateDesktop d)⟩
              else
                ⟨ResultCode.WINC_OK, some (Desktop.ofAlternate d),
                  { g.policy with alternate_desktop_ := some d }, w4⟩
    | some d => ⟨ResultCode.WINC_OK, some (Desktop.ofAlternate d), p, w⟩

/-- `ResultCode Policy::MakeJobObject(JobObject **out_job)`.  The job is held
by a plain pointer: no early return destroys it. -/
def MakeJobObject (env : Env) (p : Policy) (w : World) : Ret JobObject :=
  let job : JobObject := ⟨w.next⟩
  let w1 := w.alloc.emit (Event.new_JobObject job)
  let rc1 := env.JobObject_Init w1.trace job
  let w2 := w1.emit (Event.JobObject_Init job rc1)
  if rc1 ≠ ResultCode.WINC_OK then ⟨rc1, none, p, w2⟩
  else
    let limit1 : JOBOBJECT_EXTENDED_LIMIT_INFORMATION :=
      { JOBOBJECT_EXTENDED_LIMIT_INFORMATION.zero with
        BasicLimitInformation :=
          { JOBOBJECT_EXTENDED_LIMIT_INFORMATION.zero.BasicLimitInformation with
            LimitFlags := p.job_basic_limit_ } }
    let rc2 := env.JobObject_SetBasicLimit w2.trace job limit1
    let w3 := w2.emit (Event.JobObject_SetBasicLimit job limit1 rc2)
    if rc2 ≠ ResultCode.WINC_OK then ⟨rc2, none, p, w3⟩
    else
      let limit2 : JOBOBJECT_BASIC_UI_RESTRICTIONS :=
        { JOBOBJECT_BASIC_UI_RESTRICTIONS.zero with UIRestrictionsClass := p.job_ui_limit_ }
      let rc3 := env.JobObject_SetUILimit w3.trace job limit2
      let w4 := w3.emit (Event.JobObject_SetUILimit job limit2 rc3)
      if rc3 ≠ ResultCode.WINC_OK then ⟨rc3, none, p, w4⟩
      else ⟨ResultCode.WINC_OK, some job, p, w4⟩


/-! ## Call sequences and observations -/

/-- One call on a Policy, out-parameter dropped. -/
inductive Op
  | GetLogon
  | SetLogon (logon : Option Logon)
  | AddRestrictSid (sid : Sid)
  | RemoveRestrictSid (sid : SidRef)
  | GetRestrictedToken
  | GetDesktop
  | MakeJobObject
  deriving DecidableEq, Repr

/-- The three calls that change an input of the restricted token. -/
def Op.isMutator : Op → Bool
  | Op.SetLogon _ => true
  | Op.AddRestrictSid _ => true
  | Op.RemoveRestrictSid _ => true
  | _ => false

/-- The Policy and the world after one call. -/
def step (env : Env) (op : Op) (s : Policy × World) : Policy × World :=
  match op with
  | Op.GetLogon => ((GetLogon env s.1 s.2).policy, (GetLogon env s.1 s.2).world)
  | Op.SetLogon logon => SetLogon logon s.1 s.2
  | Op.AddRestrictSid sid => AddRestrictSid sid s.1 s.2
  | Op.RemoveRestrictSid sid => RemoveRestrictSid sid s.1 s.2
  | Op.GetRestrictedToken =>
    ((GetRestrictedToken env s.1 s.2).policy, (GetRestrictedToken env s.1 s.2).world)
  | Op.GetDesktop => ((GetDesktop env s.1 s.2).policy, (GetDesktop env s.1 s.2).world)
  | Op.MakeJobObject => ((MakeJobObject env s.1 s.2).policy, (MakeJobObject env s.1 s.2).world)

/-- The Policy and the world after a sequence of calls. -/
def run (env : Env) (ops : List Op) (s : Policy × World) : Policy × World :=
  ops.foldl (fun s op => step env op s) s

/-- The events a call appended: the history after it, without the history
before it. -/
def newEvents (before after : World) : List Event :=
  after.trace.drop before.trace.length

/-- Is the event a `FilterToken` call? -/
def Event.isFilterToken : Event → Bool
  | Event.Logon_FilterToken _ _ _ _ _ => true
  | _ => false

/-- Is the event an `Init` call on a `Logon`? -/
def Event.isLogonInit : Event → Bool
  | Event.Logon_Init _ _ _ => true
  | _ => false

/-- The `(security identifier, attribute 0)` pair for one restriction entry. -/
def sidPair (s : Sid) : SID_AND_ATTRIBUTES :=
  { Sid := some s, Attributes := 0 }

/-- The answer `GetRestrictedToken` gets from `FilterToken` when it calls it on
`logon` with the list built from `restricted_sids_`, the history being `tr`. -/
def filterAnswer (env : Env) (tr : List Event) (logon : Logon) (restricted_sids_ : List Sid) :
    ResultCode × HANDLE :=
  env.Logon_FilterToken tr logon (sids_to_restrict restricted_sids_)
    ((sids_to_restrict restricted_sids_).length % 2 ^ 32)

/-- The event that records this `FilterToken` call and its answer. -/
def filterEvent (env : Env) (tr : List Event) (logon : Logon) (restricted_sids_ : List Sid) :
    Event :=
  Event.Logon_FilterToken logon (sids_to_restrict restricted_sids_)
    ((sids_to_restrict restricted_sids_).length % 2 ^ 32)
    (filterAnswer env tr logon restricted_sids_).1 (filterAnswer env tr logon restricted_sids_).2

/-- Invariant I1, relative to the history `w0` the Policy started from: a
cached restricted token is the token a `FilterToken` call of this Policy got,
with answer `WINC_OK`, from the current logon for the list built from the
current restriction entries. -/
def I1 (env : Env) (w0 : World) (p : Policy) (w : World) : Prop :=
  ∀ token, p.restricted_token_ = some token →
    ∃ logon pre post, p.logon_ = some logon ∧
      w.trace = w0.trace ++ pre ++
        Event.Logon_FilterToken logon (sids_to_restrict p.restricted_sids_)
          ((sids_to_restrict p.restricted_sids_).length % 2 ^ 32) ResultCode.WINC_OK token
          :: post ∧
      env.Logon_FilterToken (w0.trace ++ pre) logon (sids_to_restrict p.restricted_sids_)
          ((sids_to_restrict p.restricted_sids_).length % 2 ^ 32)
        = (ResultCode.WINC_OK, token)

/-! ## Concrete inputs -/

def sidA : Sid := ⟨[1, 1]⟩
def sidB : Sid := ⟨[1, 2]⟩

/-- Every collaborator call succeeds; `FilterToken` yields handle 7. -/
def envOk : Env :=
  { Logon_Init := fun _ _ _ => ResultCode.WINC_OK,
    Logon_FilterToken := fun _ _ _ _ => (ResultCode.WINC_OK, 7),
    Logon_GrantAccess := fun _ _ _ _ _ => ResultCode.WINC_OK,
    AlternateDesktop_Init := fun _ _ _ => ResultCode.WINC_OK,
    GetDesktopHandle := fun _ d => 2 * d.addr,
    GetWinstaHandle := fun _ d => 2 * d.addr + 1,
    JobObject_Init := fun _ _ => ResultCode.WINC_OK,
    JobObject_SetBasicLimit := fun _ _ _ => ResultCode.WINC_OK,
    JobObject_SetUILimit := fun _ _ _ => ResultCode.WINC_OK }

/-- As `envOk`, but `FilterToken` fails with code 5. -/
def envFilterFails : Env :=
  { envOk with Logon_FilterToken := fun _ _ _ _ => (ResultCode.WINC_ERROR 5, 0) }

/-- As `envOk`, but `Init` of a logon fails with code 3. -/
def envLogonFails : Env :=
  { envOk with Logon_Init := fun _ _ _ => ResultCode.WINC_ERROR 3 }

/-- As `envOk`, but `Init` of an alternate desktop fails with code 4. -/
def envDesktopFails : Env :=
  { envOk with AlternateDesktop_Init := fun _ _ _ => ResultCode.WINC_ERROR 4 }

/-- An empty history. -/
def world0 : World := ⟨[], 0⟩

/-- A newly created Policy in shared-desktop mode. -/
def policy0 : Policy := Policy.create false 0 0

/-- The state after `AddRestrictSid(sidA)`, `AddRestrictSid(sidA)` on `policy0`. -/
def twoAdds : Policy × World :=
  AddRestrictSid sidA (AddRestrictSid sidA policy0 world0).1 (AddRestrictSid sidA policy0 world0).2

/-- The first `GetRestrictedToken` call on `policy0`, every collaborator succeeding. -/
def firstGet : Ret HANDLE := GetRestrictedToken envOk policy0 world0

/-- The state after `firstGet` followed by `SetLogon` of the logon at address 40. -/
def afterSetLogon : Policy × World :=
  step envOk (Op.SetLogon (some ⟨40⟩)) (firstGet.policy, firstGet.world)

/-- As `envOk`, but `GrantAccess` fails with code 8 on a window-station handle
(an odd handle) and succeeds on a desktop handle. -/
def envWinstaGrantFails : Env :=
  { envOk with
    Logon_GrantAccess := fun _ _ object _ _ =>
      if object % 2 = 1 then ResultCode.WINC_ERROR 8 else ResultCode.WINC_OK }

/-- As `envOk`, but `GrantAccess` always fails with code 9. -/
def envGrantFails : Env :=
  { envOk with Logon_GrantAccess := fun _ _ _ _ _ => ResultCode.WINC_ERROR 9 }

/-- As `envOk`, but `Init` of a job object fails with code 6. -/
def envJobInitFails : Env :=
  { envOk with JobObject_Init := fun _ _ => ResultCode.WINC_ERROR 6 }

/-- A newly created Policy in isolated-desktop mode. -/
def policyIsolated : Policy := Policy.create true 0 0

/-- Is the event the construction of a `DefaultDesktop`? -/
def Event.isNewDefaultDesktop : Event → Bool
  | Event.new_DefaultDesktop _ => true
  | _ => false

/-- Is the event a `GrantAccess` call? -/
def Event.isGrantAccess : Event → Bool
  | Event.Logon_GrantAccess _ _ _ _ _ => true
  | _ => false

/-- The first `GetDesktop` call on `policyIsolated`, every collaborator succeeding. -/
def firstDesktop : Ret Desktop := GetDesktop envOk policyIsolated world0

/-- The state after `firstDesktop` followed by `SetLogon` of the logon at address 40. -/
def afterNewId : Policy × World :=
  SetLogon (some ⟨40⟩) firstDesktop.policy firstDesktop.world

/-- A newly created Policy with basic limit flags 6 and UI restriction class 9. -/
def policyLimits : Policy := Policy.create false 6 9

/-- The first `MakeJobObject` call on `policyLimits`, every collaborator succeeding. -/
def firstJob : Ret JobObject := MakeJobObject envOk policyLimits world0

/-- The number of `DefaultDesktop` constructions in the history so far, plus
one while no default desktop is cached.  No call makes it grow. -/
def defaultDesktopBudget (s : Policy × World) : Nat :=
  s.2.trace.countP Event.isNewDefaultDesktop + (if s.1.default_desktop_ = none then 1 else 0)

theorem take_succ_set {α : Type} (l : List α) (n : Nat) (a : α) (h : n < l.length) :
    (l.set n a).take (n + 1) = l.take n ++ [a] := by
  rw [List.take_succ, List.getElem?_set_self h, List.set_take, List.set_eq_of_length_le]
  · rfl
  · rw [List.length_take]; omega

theorem std_find_loop_spec (buf : List Sid) (value : Sid) :
    ∀ (fuel first : Nat), first + fuel = buf.length →
      first ≤ std_find_loop buf buf.length (SidRef.outside value) fuel first ∧
      std_find_loop buf buf.length (SidRef.outside value) fuel first ≤ buf.length ∧
      (∀ x ∈ (buf.take (std_find_loop buf buf.length (SidRef.outside value) fuel first)).drop first, x ≠ value) ∧
      (std_find_loop buf buf.length (SidRef.outside value) fuel first ≠ buf.length →
        buf[std_find_loop buf buf.length (SidRef.outside value) fuel first]? = some value) := by
  intro fuel
  induction fuel with
  | zero =>
    intro first h
    simp only [Nat.add_zero] at h
    subst h
    simp [std_find_loop]
  | succ n ih =>
    intro first h
    have hne : first ≠ buf.length := by omega
    have hlt : first < buf.length := by omega
    unfold std_find_loop
    simp only [SidRef.read]
    rw [if_neg hne]
    by_cases hv : buf[first]? = some value
    · rw [if_pos hv]
      refine ⟨le_refl _, by omega, ?_, fun _ => hv⟩
      have hnil : (buf.take first).drop first = [] :=
        List.drop_eq_nil_of_le (by rw [List.length_take]; omega)
      rw [hnil]
      intro x hx
      cases hx
    · rw [if_neg hv]
      obtain ⟨h1, h2, h3, h4⟩ := ih (first + 1) (by omega)
      refine ⟨by omega, h2, ?_, h4⟩
      intro x hx
      have hr : first < (buf.take (std_find_loop buf buf.length (SidRef.outside value) n (first + 1))).length := by
        rw [List.length_take]; omega
      rw [List.drop_eq_getElem_cons hr] at hx
      rcases List.mem_cons.mp hx with hx | hx
      · subst hx
        intro hxv
        apply hv
        rw [List.getElem_take] at hxv
        rw [List.getElem?_eq_getElem hlt, hxv]
      · exact h3 x hx

theorem std_remove_loop_spec (value : Sid) :
    ∀ (fuel : Nat) (buf : List Sid) (first i : Nat), first ≤ i → i < buf.length →
      buf.length ≤ i + fuel →
      (std_remove_loop (SidRef.outside value) buf.length fuel buf first i).1.take
          (std_remove_loop (SidRef.outside value) buf.length fuel buf first i).2
        = buf.take first ++ (buf.drop (i + 1)).filter (fun x => x ≠ value) ∧
      (std_remove_loop (SidRef.outside value) buf.length fuel buf first i).1.length = buf.length := by
  intro fuel
  induction fuel with
  | zero => intro buf first i _ h2 h3; omega
  | succ n ih =>
    intro buf first i h1 h2 h3
    unfold std_remove_loop
    by_cases hlast : i + 1 = buf.length
    · rw [if_pos hlast]
      simp [hlast]
    · rw [if_neg hlast]
      have hi : i + 1 < buf.length := by omega
      rw [List.getElem?_eq_getElem hi]
      simp only [SidRef.read]
      have hdrop : buf.drop (i + 1) = buf[i + 1] :: buf.drop (i + 1 + 1) :=
        List.drop_eq_getElem_cons hi
      by_cases hx : buf[i + 1] ≠ value
      · rw [if_pos (by simpa using hx)]
        have hlen : (buf.set first buf[i + 1]).length = buf.length := List.length_set ..
        have := ih (buf.set first buf[i + 1]) (first + 1) (i + 1) (by omega) (by omega) (by omega)
        rw [hlen] at this
        obtain ⟨e1, e2⟩ := this
        refine ⟨?_, e2⟩
        rw [e1, hdrop, List.filter_cons_of_pos (by simpa using hx)]
        rw [List.drop_set_of_lt _ _ (by omega)]
        rw [take_succ_set _ _ _ (by omega)]
        simp
      · rw [if_neg (by simpa using hx)]
        obtain ⟨e1, e2⟩ := ih buf first (i + 1) (by omega) (by omega) (by omega)
        refine ⟨?_, e2⟩
        rw [e1, hdrop, List.filter_cons_of_neg (by simpa using hx)]

/-- The erase-remove idiom, given a reference to an object outside the vector,
keeps exactly the elements different from its value. -/
theorem erase_remove_eq_filter (l : List Sid) (value : Sid) :
    vector_erase (std_remove l (SidRef.outside value)).1 (std_remove l (SidRef.outside value)).2 (std_remove l (SidRef.outside value)).1.length
      = l.filter (fun x => x ≠ value) := by
  obtain ⟨-, h2, h3, h4⟩ := std_find_loop_spec l value l.length 0 (by simp)
  have hfind : std_find l 0 l.length (SidRef.outside value) = std_find_loop l l.length (SidRef.outside value) l.length 0 := by
    simp [std_find]
  simp only [List.drop_zero] at h3
  have htake : (l.take (std_find l 0 l.length (SidRef.outside value))).filter (fun x => x ≠ value)
      = l.take (std_find l 0 l.length (SidRef.outside value)) := by
    rw [List.filter_eq_self, hfind]
    intro a ha
    simpa using h3 a ha
  unfold std_remove vector_erase
  simp only
  by_cases hend : std_find l 0 l.length (SidRef.outside value) = l.length
  · rw [if_neg (by simpa using hend)]
    simp only [List.drop_length, List.append_nil]
    rw [hend, List.take_length] at htake ⊢
    exact htake.symm
  · rw [if_pos hend]
    have hlt : std_find l 0 l.length (SidRef.outside value) < l.length := by
      rw [hfind] at hend ⊢; omega
    obtain ⟨e1, -⟩ := std_remove_loop_spec value (l.length - std_find l 0 l.length (SidRef.outside value)) l
      (std_find l 0 l.length (SidRef.outside value)) (std_find l 0 l.length (SidRef.outside value)) (le_refl _) hlt (by omega)
    rw [List.drop_length, List.append_nil, e1]
    have hval : l[std_find l 0 l.length (SidRef.outside value)] = value := by
      have := h4 (by rw [← hfind]; exact hend)
      rw [← hfind, List.getElem?_eq_getElem hlt] at this
      exact Option.some.inj this
    conv_rhs => rw [← List.take_append_drop (std_find l 0 l.length (SidRef.outside value)) l]
    rw [List.filter_append, htake, List.drop_eq_getElem_cons hlt,
      List.filter_cons_of_neg (by simp [hval])]

theorem fill_sids_to_restrict_spec (sids : List Sid) (hlen : sids.length < 2 ^ 32) :
    ∀ (fuel i : Nat) (out : List SID_AND_ATTRIBUTES), i + fuel = sids.length →
      out.length = sids.length →
      (∀ j, j < i → out[j]? = (sids.map fun s => ({ Sid := some s, Attributes := 0 } : SID_AND_ATTRIBUTES))[j]?) →
      fill_sids_to_restrict sids fuel i out
        = sids.map fun s => ({ Sid := some s, Attributes := 0 } : SID_AND_ATTRIBUTES) := by
  intro fuel
  induction fuel with
  | zero =>
    intro i out hi hout hpre
    simp only [Nat.add_zero] at hi
    unfold fill_sids_to_restrict
    apply List.ext_getElem?
    intro j
    by_cases hj : j < i
    · exact hpre j hj
    · rw [List.getElem?_eq_none (by omega), List.getElem?_eq_none (by rw [List.length_map]; omega)]
  | succ n ih =>
    intro i out hi hout hpre
    have hlt : i < sids.length := by omega
    unfold fill_sids_to_restrict
    rw [List.getElem?_eq_getElem hlt]
    simp only
    rw [Nat.mod_eq_of_lt (by omega)]
    apply ih (i + 1) _ (by omega) (by rw [List.length_set]; exact hout)
    intro j hj
    by_cases hji : j = i
    · subst hji
      rw [List.getElem?_set_self (by omega), List.getElem?_map, List.getElem?_eq_getElem hlt]
      rfl
    · rw [List.getElem?_set_ne (by omega)]
      exact hpre j (by omega)

/-- For a vector whose size fits the 32-bit index, the loop of
`GetRestrictedToken` produces one `(sid, 0)` pair per entry, in order. -/
theorem sids_to_restrict_eq_map (sids : List Sid) (hlen : sids.length < 2 ^ 32) :
    sids_to_restrict sids
      = sids.map fun s => ({ Sid := some s, Attributes := 0 } : SID_AND_ATTRIBUTES) := by
  unfold sids_to_restrict
  exact fill_sids_to_restrict_spec sids hlen sids.length 0 _ (by simp) (by simp)
    (fun j hj => by omega)


/-! ## Facts shared by the claims -/

theorem RemoveRestrictSid_sids (sid : Sid) (p : Policy) (w : World) :
    (RemoveRestrictSid (SidRef.outside sid) p w).1.restricted_sids_
      = p.restricted_sids_.filter (fun x => x ≠ sid) := by
  simp only [RemoveRestrictSid]
  exact erase_remove_eq_filter p.restricted_sids_ sid

theorem erase_eq_filter_of_count_le_one (sid : Sid) :
    ∀ l : List Sid, l.count sid ≤ 1 → l.erase sid = l.filter (fun x => x ≠ sid) := by
  intro l
  induction l with
  | nil => intro _; rfl
  | cons a t ih =>
    intro h
    by_cases ha : a = sid
    · subst ha
      rw [List.count_cons_self] at h
      have hnot : a ∉ t := by
        intro hmem
        have := List.count_pos_iff.mpr hmem
        omega
      rw [List.erase_cons_head, List.filter_cons_of_neg (by simp)]
      symm
      rw [List.filter_eq_self]
      intro b hb
      have : b ≠ a := fun e => hnot (e ▸ hb)
      simpa using this
    · rw [List.count_cons_of_ne (fun e => ha e.symm)] at h
      rw [List.erase_cons_tail (by simpa using ha), List.filter_cons_of_pos (by simpa using ha),
        ih h]

/-! ## The claims -/

/-- C1 (amended): called with an argument that is not itself an element of
`restricted_sids_`, `RemoveRestrictSid(sid)` removes every entry equal to
`sid`, not only the first.  The list afterwards is a sub-sequence of the old
list in which `sid` no longer occurs and every other entry keeps its
multiplicity; it is the old list with the first occurrence of `sid` erased
exactly when `sid` occurs at most once. -/
theorem RemoveRestrictSid_removes_every_occurrence (sid : Sid) (p : Policy) (w : World) :
    (RemoveRestrictSid (SidRef.outside sid) p w).1.restricted_sids_.Sublist
      p.restricted_sids_ ∧
    (RemoveRestrictSid (SidRef.outside sid) p w).1.restricted_sids_.count sid = 0 ∧
    (∀ x, x ≠ sid →
      (RemoveRestrictSid (SidRef.outside sid) p w).1.restricted_sids_.count x
        = p.restricted_sids_.count x) ∧
    ((RemoveRestrictSid (SidRef.outside sid) p w).1.restricted_sids_
        = p.restricted_sids_.erase sid
      ↔ p.restricted_sids_.count sid ≤ 1) := by
  rw [RemoveRestrictSid_sids]
  refine ⟨List.filter_sublist _, ?_, ?_, ?_⟩
  · rw [List.count_eq_zero]
    simp
  · intro x hx
    exact List.count_filter (by simpa using hx)
  · constructor
    · intro h
      have hc : (p.restricted_sids_.erase sid).count sid = 0 := by
        rw [← h, List.count_eq_zero]
        simp
      rw [List.count_erase_self] at hc
      omega
    · intro h
      exact (erase_eq_filter_of_count_le_one sid _ h).symm

/-- C1 (as stated) fails: on the list `[A, B, A]`, reached by three
`AddRestrictSid` calls, `RemoveRestrictSid(A)`, called with an `A` that is not
an element of the list, leaves `[B]`, while erasing the first occurrence of
`A` would leave `[B, A]`; `A` occurs twice before and not at all afterwards. -/
theorem RemoveRestrictSid_first_only_fails :
    (run envOk [Op.AddRestrictSid sidA, Op.AddRestrictSid sidB, Op.AddRestrictSid sidA]
        (Policy.create false 0 0, world0)).1.restricted_sids_ = [sidA, sidB, sidA] ∧
    (RemoveRestrictSid (SidRef.outside sidA)
        (run envOk [Op.AddRestrictSid sidA, Op.AddRestrictSid sidB, Op.AddRestrictSid sidA]
          (Policy.create false 0 0, world0)).1 world0).1.restricted_sids_ = [sidB] ∧
    List.erase [sidA, sidB, sidA] sidA = [sidB, sidA] ∧
    (RemoveRestrictSid (SidRef.outside sidA)
        (run envOk [Op.AddRestrictSid sidA, Op.AddRestrictSid sidB, Op.AddRestrictSid sidA]
          (Policy.create false 0 0, world0)).1 world0).1.restricted_sids_
      ≠ List.erase [sidA, sidB, sidA] sidA ∧
    List.count sidA [sidA, sidB, sidA] = 2 ∧
    (RemoveRestrictSid (SidRef.outside sidA)
        (run envOk [Op.AddRestrictSid sidA, Op.AddRestrictSid sidB, Op.AddRestrictSid sidA]
          (Policy.create false 0 0, world0)).1 world0).1.restricted_sids_.count sidA = 0 := by
  decide

/-- C2: `SetLogon(logon)` leaves `logon_` equal to the argument, empties
`restricted_token_` and `alternate_desktop_`, and keeps `default_desktop_`,
`restricted_sids_`, `use_desktop_` and the job limits; over any number of
`SetLogon` calls `default_desktop_` keeps its value, and after at least one
`alternate_desktop_` is empty. -/
theorem SetLogon_effect (env : Env) (logon : Option Logon) (p : Policy) (w : World) :
    (SetLogon logon p w).1.logon_ = logon ∧
    (SetLogon logon p w).1.restricted_token_ = none ∧
    (SetLogon logon p w).1.alternate_desktop_ = none ∧
    (SetLogon logon p w).1.default_desktop_ = p.default_desktop_ ∧
    (SetLogon logon p w).1.restricted_sids_ = p.restricted_sids_ ∧
    (SetLogon logon p w).1.use_desktop_ = p.use_desktop_ ∧
    (SetLogon logon p w).1.job_basic_limit_ = p.job_basic_limit_ ∧
    (SetLogon logon p w).1.job_ui_limit_ = p.job_ui_limit_ ∧
    (∀ logons : List (Option Logon),
      (run env (logons.map Op.SetLogon) (p, w)).1.default_desktop_ = p.default_desktop_) ∧
    (∀ (first : Option Logon) (logons : List (Option Logon)),
      (run env ((first :: logons).map Op.SetLogon) (p, w)).1.alternate_desktop_ = none) := by
  refine ⟨rfl, rfl, rfl, rfl, rfl, rfl, rfl, rfl, ?_, ?_⟩
  · intro logons
    induction logons generalizing p w with
    | nil => rfl
    | cons l ls ih =>
      simp only [List.map_cons, run, List.foldl_cons]
      exact ih (step env (Op.SetLogon l) (p, w)).1 (step env (Op.SetLogon l) (p, w)).2
  · intro first logons
    induction logons using List.reverseRecOn with
    | nil => rfl
    | append_singleton ls l _ =>
      rw [← List.cons_append]
      simp only [List.map_append, run, List.foldl_append, List.map_cons, List.map_nil,
        List.foldl_cons, List.foldl_nil]
      rfl

/-- C4: `AddRestrictSid(sid)` appends `sid` at the end of `restricted_sids_`
whether or not it is already there (the length grows by one, the number of
occurrences of `sid` grows by one), empties `restricted_token_`, and keeps
`logon_`, `default_desktop_` and `alternate_desktop_`. -/
theorem AddRestrictSid_effect (sid : Sid) (p : Policy) (w : World) :
    (AddRestrictSid sid p w).1.restricted_sids_ = p.restricted_sids_ ++ [sid] ∧
    (AddRestrictSid sid p w).1.restricted_sids_.length = p.restricted_sids_.length + 1 ∧
    (AddRestrictSid sid p w).1.restricted_sids_.count sid = p.restricted_sids_.count sid + 1 ∧
    (AddRestrictSid sid p w).1.restricted_token_ = none ∧
    (AddRestrictSid sid p w).1.logon_ = p.logon_ ∧
    (AddRestrictSid sid p w).1.default_desktop_ = p.default_desktop_ ∧
    (AddRestrictSid sid p w).1.alternate_desktop_ = p.alternate_desktop_ := by
  refine ⟨rfl, ?_, ?_, rfl, rfl, rfl, rfl⟩
  · simp [AddRestrictSid]
  · simp [AddRestrictSid, List.count_append]

/-- C8: when `sid`, the value of the argument, does not occur in
`restricted_sids_` (so the argument cannot be an element of it),
`RemoveRestrictSid(sid)` leaves the list as it is and still empties
`restricted_token_`, whatever was cached before. -/
theorem RemoveRestrictSid_absent (arg : SidRef) (sid : Sid) (p : Policy) (w : World)
    (harg : arg.read p.restricted_sids_ = some sid)
    (h : sid ∉ p.restricted_sids_) :
    (RemoveRestrictSid arg p w).1.restricted_sids_ = p.restricted_sids_ ∧
    (RemoveRestrictSid arg p w).1.restricted_token_ = none := by
  refine ⟨?_, rfl⟩
  cases arg with
  | element k => exact absurd (List.getElem?_mem harg) h
  | outside v =>
    have hv : v = sid := Option.some.inj harg
    subst hv
    rw [RemoveRestrictSid_sids, List.filter_eq_self]
    intro a ha
    have : a ≠ v := fun e => h (e ▸ ha)
    simpa using this

theorem RemoveRestrictSid_absent_witness :
    (SidRef.outside sidB).read
        ({ Policy.create false 0 0 with
            restricted_sids_ := [sidA, sidA], restricted_token_ := some 7 } : Policy).restricted_sids_
      = some sidB ∧
    sidB ∉ ({ Policy.create false 0 0 with
                restricted_sids_ := [sidA, sidA], restricted_token_ := some 7 } : Policy).restricted_sids_ ∧
    (RemoveRestrictSid (SidRef.outside sidB)
        { Policy.create false 0 0 with restricted_sids_ := [sidA, sidA], restricted_token_ := some 7 }
        world0).1.restricted_sids_ = [sidA, sidA] ∧
    (RemoveRestrictSid (SidRef.outside sidB)
        { Policy.create false 0 0 with restricted_sids_ := [sidA, sidA], restricted_token_ := some 7 }
        world0).1.restricted_token_ = none :=
  ⟨rfl, by decide, RemoveRestrictSid_absent (SidRef.outside sidB) sidB _ world0 rfl (by decide)⟩

theorem newEvents_append (w : World) (ext : List Event) (n : Nat) :
    newEvents w ⟨w.trace ++ ext, n⟩ = ext := by
  simp [newEvents]

theorem GetLogon_cached (env : Env) (p : Policy) (w : World) (l : Logon)
    (h : p.logon_ = some l) : GetLogon env p w = ⟨ResultCode.WINC_OK, some l, p, w⟩ := by
  simp [GetLogon, h]

theorem GetLogon_ok (env : Env) (p : Policy) (w : World)
    (h : (GetLogon env p w).rc = ResultCode.WINC_OK) :
    ∃ l, (GetLogon env p w).out = some l ∧
      (GetLogon env p w).policy = { p with logon_ := some l } := by
  unfold GetLogon at h ⊢
  cases hl : p.logon_ with
  | some l =>
    refine ⟨l, by simp, ?_⟩
    cases p
    simp_all
  | none =>
    simp only [hl] at h ⊢
    split at h
    · rename_i hrc
      exact absurd h hrc
    · rename_i hrc
      simp [hrc]

theorem GetLogon_fail (env : Env) (p : Policy) (w : World)
    (h : (GetLogon env p w).rc ≠ ResultCode.WINC_OK) :
    (GetLogon env p w).policy = p ∧ (GetLogon env p w).out = none ∧ p.logon_ = none := by
  unfold GetLogon at h ⊢
  cases hl : p.logon_ with
  | some l => simp [hl] at h
  | none =>
    simp only [hl] at h ⊢
    split
    · simp
    · rename_i hrc
      simp [hrc] at h

theorem GetLogon_trace (env : Env) (p : Policy) (w : World) :
    ∃ ext, (GetLogon env p w).world.trace = w.trace ++ ext ∧
      ∀ e ∈ ext, e.isFilterToken = false := by
  unfold GetLogon
  cases hl : p.logon_ with
  | some l => exact ⟨[], by simp, by simp⟩
  | none =>
    simp only
    split
    · exact ⟨_, by simp [World.emit, World.alloc, List.append_assoc]; rfl, by
        simp [Event.isFilterToken]⟩
    · exact ⟨_, by simp [World.emit, World.alloc, List.append_assoc]; rfl, by
        simp [Event.isFilterToken]⟩


/-- The three ways a `GetRestrictedToken` call without a cached token ends. -/
theorem GetRestrictedToken_uncached (env : Env) (p : Policy) (w : World)
    (h : p.restricted_token_ = none) :
    ((GetLogon env p w).rc ≠ ResultCode.WINC_OK ∧
      GetRestrictedToken env p w
        = ⟨(GetLogon env p w).rc, none, (GetLogon env p w).policy, (GetLogon env p w).world⟩) ∨
    (∃ l, (GetLogon env p w).rc = ResultCode.WINC_OK ∧ (GetLogon env p w).out = some l ∧
      (GetLogon env p w).policy = { p with logon_ := some l } ∧
      (((filterAnswer env (GetLogon env p w).world.trace l p.restricted_sids_).1
            ≠ ResultCode.WINC_OK ∧
        GetRestrictedToken env p w
          = ⟨(filterAnswer env (GetLogon env p w).world.trace l p.restricted_sids_).1,
              none, { p with logon_ := some l },
              (GetLogon env p w).world.emit
                (filterEvent env (GetLogon env p w).world.trace l p.restricted_sids_)⟩) ∨
       ((filterAnswer env (GetLogon env p w).world.trace l p.restricted_sids_).1
            = ResultCode.WINC_OK ∧
        GetRestrictedToken env p w
          = ⟨ResultCode.WINC_OK,
              some (filterAnswer env (GetLogon env p w).world.trace l p.restricted_sids_).2,
              { p with
                logon_ := some l,
                restricted_token_ :=
                  some (filterAnswer env (GetLogon env p w).world.trace l p.restricted_sids_).2 },
              (GetLogon env p w).world.emit
                (filterEvent env (GetLogon env p w).world.trace l p.restricted_sids_)⟩))) := by
  by_cases hg : (GetLogon env p w).rc = ResultCode.WINC_OK
  · right
    obtain ⟨l, hout, hpol⟩ := GetLogon_ok env p w hg
    refine ⟨l, hg, hout, hpol, ?_⟩
    have hs : (GetLogon env p w).policy.restricted_sids_ = p.restricted_sids_ := by rw [hpol]
    by_cases hf : (filterAnswer env (GetLogon env p w).world.trace l p.restricted_sids_).1
        = ResultCode.WINC_OK
    · right
      refine ⟨hf, ?_⟩
      unfold filterEvent
      unfold filterAnswer at hf ⊢
      unfold GetRestrictedToken
      simp only [h, hg, hout, hs, hf, ne_eq, not_true_eq_false, if_false]
      rw [hpol]
    · left
      refine ⟨hf, ?_⟩
      unfold filterEvent
      unfold filterAnswer at hf ⊢
      unfold GetRestrictedToken
      simp only [h, hg, hout, hs, hf, ne_eq, not_true_eq_false, not_false_eq_true, if_false,
        if_true]
      rw [hpol, h]
  · left
    refine ⟨hg, ?_⟩
    unfold GetRestrictedToken
    simp only [h, hg, ne_eq, not_false_eq_true, if_true]

theorem GetRestrictedToken_cached (env : Env) (p : Policy) (w : World) (token : HANDLE)
    (h : p.restricted_token_ = some token) :
    GetRestrictedToken env p w = ⟨ResultCode.WINC_OK, some token, p, w⟩ := by
  simp [GetRestrictedToken, h]

theorem MakeJobObject_policy (env : Env) (p : Policy) (w : World) :
    (MakeJobObject env p w).policy = p := by
  unfold MakeJobObject
  simp only
  split
  · rfl
  · split
    · rfl
    · split <;> rfl

theorem MakeJobObject_trace (env : Env) (p : Policy) (w : World) :
    ∃ ext, (MakeJobObject env p w).world.trace = w.trace ++ ext := by
  unfold MakeJobObject
  simp only
  split
  · exact ⟨_, by simp only [World.emit, World.alloc, List.append_assoc]; rfl⟩
  · split
    · exact ⟨_, by simp only [World.emit, World.alloc, List.append_assoc]; rfl⟩
    · split <;> exact ⟨_, by simp only [World.emit, World.alloc, List.append_assoc]; rfl⟩

/-- What `GetDesktop` does to the Policy: it keeps it, or caches a default
desktop, or leaves what its `GetLogon` call left, possibly with a newly cached
alternate desktop. -/
theorem GetDesktop_policy (env : Env) (p : Policy) (w : World) :
    ((GetDesktop env p w).rc = ResultCode.WINC_OK ∧
      ((GetDesktop env p w).policy = p ∨
       (∃ d, (GetDesktop env p w).policy = { p with default_desktop_ := some d }) ∨
       (∃ d, (GetDesktop env p w).policy
          = { (GetLogon env p w).policy with alternate_desktop_ := some d }))) ∨
    ((GetDesktop env p w).rc ≠ ResultCode.WINC_OK ∧ p.alternate_desktop_ = none ∧
      (GetDesktop env p w).policy = (GetLogon env p w).policy) := by
  unfold GetDesktop
  split
  · split
    · exact Or.inl ⟨rfl, Or.inr (Or.inl ⟨_, rfl⟩)⟩
    · exact Or.inl ⟨rfl, Or.inl rfl⟩
  · split
    · rename_i hnone
      simp only
      split
      · rename_i hrc
        exact Or.inr ⟨hrc, hnone, rfl⟩
      · split
        · rename_i hrc _ hout
          exfalso
          obtain ⟨l, hl, -⟩ := GetLogon_ok env p w (not_not.mp hrc)
          rw [hl] at hout
          cases hout
        · split
          · rename_i hrc
            exact Or.inr ⟨hrc, hnone, rfl⟩
          · split
            · rename_i hrc
              exact Or.inr ⟨hrc, hnone, rfl⟩
            · split
              · rename_i hrc
                exact Or.inr ⟨hrc, hnone, rfl⟩
              · exact Or.inl ⟨rfl, Or.inr (Or.inr ⟨_, rfl⟩)⟩
    · exact Or.inl ⟨rfl, Or.inl rfl⟩

theorem GetDesktop_trace (env : Env) (p : Policy) (w : World) :
    ∃ ext, (GetDesktop env p w).world.trace = w.trace ++ ext := by
  obtain ⟨e0, he0, -⟩ := GetLogon_trace env p w
  unfold GetDesktop
  split
  · split
    · exact ⟨_, by simp only [World.emit, World.alloc]; rfl⟩
    · exact ⟨[], by simp⟩
  · split
    · simp only
      split
      · exact ⟨_, he0⟩
      · split
        · exact ⟨_, he0⟩
        · split
          · exact ⟨_, by simp only [World.emit, World.alloc, he0, List.append_assoc]; rfl⟩
          · split
            · exact ⟨_, by simp only [World.emit, World.alloc, he0, List.append_assoc]; rfl⟩
            · split
              · exact ⟨_, by simp only [World.emit, World.alloc, he0, List.append_assoc]; rfl⟩
              · exact ⟨_, by simp only [World.emit, World.alloc, he0, List.append_assoc]; rfl⟩
    · exact ⟨[], by simp⟩


theorem filter_isFilterToken_eq_nil (ext : List Event)
    (h : ∀ e ∈ ext, e.isFilterToken = false) : ext.filter Event.isFilterToken = [] := by
  rw [List.filter_eq_nil_iff]
  intro e he
  simp [h e he]

/-- The events of a `GetRestrictedToken` call without a cached token: those of
its `GetLogon` call, none of them a `FilterToken` call, followed by the one
`FilterToken` call when the logon was resolved. -/
theorem GetRestrictedToken_uncached_events (env : Env) (p : Policy) (w : World)
    (h : p.restricted_token_ = none) :
    ∃ ext, (GetLogon env p w).world.trace = w.trace ++ ext ∧
      (∀ e ∈ ext, e.isFilterToken = false) ∧
      (((GetLogon env p w).rc ≠ ResultCode.WINC_OK ∧
          newEvents w (GetRestrictedToken env p w).world = ext) ∨
       (∃ l, (GetLogon env p w).out = some l ∧
          newEvents w (GetRestrictedToken env p w).world
            = ext ++ [filterEvent env (GetLogon env p w).world.trace l p.restricted_sids_])) := by
  obtain ⟨ext, hext, hno⟩ := GetLogon_trace env p w
  refine ⟨ext, hext, hno, ?_⟩
  rcases GetRestrictedToken_uncached env p w h with ⟨hrc, heq⟩ | ⟨l, -, hout, -, hcase⟩
  · left
    refine ⟨hrc, ?_⟩
    rw [heq]
    simp [newEvents, hext]
  · right
    refine ⟨l, hout, ?_⟩
    rcases hcase with ⟨-, heq⟩ | ⟨hf, heq⟩
    · rw [heq]
      simp [newEvents, World.emit, hext]
    · rw [heq]
      simp [newEvents, World.emit, hext, filterEvent, hf]

/-- C3: when `GetRestrictedToken` has no cached token and the vector of
restriction entries fits the 32-bit index and count of the source, every
`FilterToken` call it makes receives the list of `(sid, attribute 0)` pairs of
the current `restricted_sids_`, in order and of the same length, with that
length as count; it makes exactly one such call when the logon is resolved.
In particular after `AddRestrictSid(S1)`, `AddRestrictSid(S1)` on an empty
list, the call receives two entries for `S1`. -/
theorem GetRestrictedToken_filter_arguments (env : Env) (p : Policy) (w : World) (S1 : Sid)
    (hcache : p.restricted_token_ = none) (hsize : p.restricted_sids_.length < 2 ^ 32) :
    (∀ logon sids count rc token,
      Event.Logon_FilterToken logon sids count rc token
          ∈ newEvents w (GetRestrictedToken env p w).world →
        sids = p.restricted_sids_.map sidPair ∧
        sids.length = p.restricted_sids_.length ∧
        count = p.restricted_sids_.length) ∧
    ((GetLogon env p w).rc = ResultCode.WINC_OK →
      ((newEvents w (GetRestrictedToken env p w).world).filter Event.isFilterToken).length = 1) ∧
    (∀ logon sids count rc token,
      Event.Logon_FilterToken logon sids count rc token
          ∈ newEvents
              (AddRestrictSid S1
                (AddRestrictSid S1 { p with restricted_sids_ := [] } w).1
                (AddRestrictSid S1 { p with restricted_sids_ := [] } w).2).2
              (GetRestrictedToken env
                (AddRestrictSid S1
                  (AddRestrictSid S1 { p with restricted_sids_ := [] } w).1
                  (AddRestrictSid S1 { p with restricted_sids_ := [] } w).2).1
                (AddRestrictSid S1
                  (AddRestrictSid S1 { p with restricted_sids_ := [] } w).1
                  (AddRestrictSid S1 { p with restricted_sids_ := [] } w).2).2).world →
        sids = [sidPair S1, sidPair S1] ∧ count = 2) := by
  have key : ∀ (q : Policy) (v : World), q.restricted_token_ = none →
      q.restricted_sids_.length < 2 ^ 32 →
      ∀ logon sids count rc token,
        Event.Logon_FilterToken logon sids count rc token
            ∈ newEvents v (GetRestrictedToken env q v).world →
          sids = q.restricted_sids_.map sidPair ∧
          sids.length = q.restricted_sids_.length ∧
          count = q.restricted_sids_.length := by
    intro q v hq hlen logon sids count rc token hmem
    have hmap : sids_to_restrict q.restricted_sids_ = q.restricted_sids_.map sidPair :=
      sids_to_restrict_eq_map q.restricted_sids_ hlen
    obtain ⟨ext, -, hno, hcase⟩ := GetRestrictedToken_uncached_events env q v hq
    rcases hcase with ⟨-, hev⟩ | ⟨l, -, hev⟩
    · rw [hev] at hmem
      have := hno _ hmem
      simp [Event.isFilterToken] at this
    · rw [hev, List.mem_append] at hmem
      rcases hmem with hmem | hmem
      · have := hno _ hmem
        simp [Event.isFilterToken] at this
      · rw [List.mem_singleton] at hmem
        simp only [filterEvent, Event.Logon_FilterToken.injEq] at hmem
        obtain ⟨-, hs, hc, -, -⟩ := hmem
        have hl : sids.length = q.restricted_sids_.length := by
          rw [hs, hmap, List.length_map]
        refine ⟨hs.trans hmap, hl, ?_⟩
        rw [hc, ← hs, hl]
        exact Nat.mod_eq_of_lt hlen
  refine ⟨key p w hcache hsize, ?_, ?_⟩
  · intro hok
    obtain ⟨ext, -, hno, hcase⟩ := GetRestrictedToken_uncached_events env p w hcache
    rcases hcase with ⟨hrc, -⟩ | ⟨l, -, hev⟩
    · exact absurd hok hrc
    · rw [hev, List.filter_append, filter_isFilterToken_eq_nil ext hno]
      simp [filterEvent, Event.isFilterToken]
  · intro logon sids count rc token hmem
    have := key _ _ (by rfl) (by simp [AddRestrictSid]) logon sids count rc token hmem
    simpa [AddRestrictSid] using And.intro this.1 this.2.2

theorem GetRestrictedToken_filter_arguments_witness :
    policy0.restricted_token_ = none ∧ policy0.restricted_sids_.length < 2 ^ 32 ∧
    (∀ logon sids count rc token,
      Event.Logon_FilterToken logon sids count rc token
          ∈ newEvents twoAdds.2 (GetRestrictedToken envOk twoAdds.1 twoAdds.2).world →
        sids = [sidPair sidA, sidPair sidA] ∧ count = 2) ∧
    newEvents twoAdds.2 (GetRestrictedToken envOk twoAdds.1 twoAdds.2).world
      = [Event.new_CurrentLogon ⟨0⟩,
         Event.Logon_Init ⟨0⟩ SECURITY_MANDATORY_LOW_RID ResultCode.WINC_OK,
         Event.Logon_FilterToken ⟨0⟩ [sidPair sidA, sidPair sidA] 2 ResultCode.WINC_OK 7] :=
  ⟨rfl, by decide,
   (GetRestrictedToken_filter_arguments envOk policy0 world0 sidA rfl (by decide)).2.2,
   by decide⟩


/-- A call that is not a mutator keeps a cached restricted token. -/
theorem step_keeps_token (env : Env) (op : Op) (s : Policy × World) (token : HANDLE)
    (hop : op.isMutator = false) (h : s.1.restricted_token_ = some token) :
    (step env op s).1.restricted_token_ = some token := by
  cases op with
  | GetLogon =>
    simp only [step]
    by_cases hrc : (GetLogon env s.1 s.2).rc = ResultCode.WINC_OK
    · obtain ⟨l, -, hpol⟩ := GetLogon_ok env s.1 s.2 hrc
      rw [hpol]
      exact h
    · rw [(GetLogon_fail env s.1 s.2 hrc).1]
      exact h
  | SetLogon l => simp [Op.isMutator] at hop
  | AddRestrictSid sid => simp [Op.isMutator] at hop
  | RemoveRestrictSid sid => simp [Op.isMutator] at hop
  | GetRestrictedToken =>
    simp only [step]
    rw [GetRestrictedToken_cached env s.1 s.2 token h]
    exact h
  | GetDesktop =>
    simp only [step]
    have hg : (GetLogon env s.1 s.2).policy.restricted_token_ = some token := by
      by_cases hrc : (GetLogon env s.1 s.2).rc = ResultCode.WINC_OK
      · obtain ⟨l, -, hpol⟩ := GetLogon_ok env s.1 s.2 hrc
        rw [hpol]
        exact h
      · rw [(GetLogon_fail env s.1 s.2 hrc).1]
        exact h
    rcases GetDesktop_policy env s.1 s.2 with ⟨-, hp | ⟨d, hp⟩ | ⟨d, hp⟩⟩ | ⟨-, -, hp⟩
    · rw [hp]; exact h
    · rw [hp]; exact h
    · rw [hp]; exact hg
    · rw [hp]; exact hg
  | MakeJobObject =>
    simp only [step]
    rw [MakeJobObject_policy]
    exact h

theorem run_keeps_token (env : Env) (token : HANDLE) :
    ∀ (ops : List Op) (s : Policy × World), (∀ op ∈ ops, op.isMutator = false) →
      s.1.restricted_token_ = some token →
      (run env ops s).1.restricted_token_ = some token := by
  intro ops
  induction ops with
  | nil => intro s _ h; exact h
  | cons op ops ih =>
    intro s hops h
    simp only [run, List.foldl_cons]
    exact ih (step env op s) (fun o ho => hops o (List.mem_cons_of_mem _ ho))
      (step_keeps_token env op s token (hops op (List.mem_cons_self _ _)) h)

/-- A successful `GetRestrictedToken` leaves the token it returns in the cache. -/
theorem GetRestrictedToken_ok_cached (env : Env) (p : Policy) (w : World)
    (hok : (GetRestrictedToken env p w).rc = ResultCode.WINC_OK) :
    ∃ token, (GetRestrictedToken env p w).out = some token ∧
      (GetRestrictedToken env p w).policy.restricted_token_ = some token := by
  cases hc : p.restricted_token_ with
  | some token =>
    rw [GetRestrictedToken_cached env p w token hc]
    exact ⟨token, rfl, hc⟩
  | none =>
    rcases GetRestrictedToken_uncached env p w hc with ⟨hrc, heq⟩ | ⟨l, -, -, -, hcase⟩
    · rw [heq] at hok
      exact absurd hok hrc
    · rcases hcase with ⟨hf, heq⟩ | ⟨-, heq⟩
      · rw [heq] at hok
        exact absurd hok hf
      · rw [heq]
        exact ⟨_, rfl, rfl⟩

/-- C5 (cache correctness, P1): after a successful `GetRestrictedToken`, and
after any further calls none of which is `SetLogon`, `AddRestrictSid` or
`RemoveRestrictSid`, the next `GetRestrictedToken` succeeds, returns the same
token handle, appends no event to the history (so it makes no `FilterToken`
and no `Init` call) and leaves the Policy as it was. -/
theorem GetRestrictedToken_cache_hit (env : Env) (p : Policy) (w : World) (ops : List Op)
    (hok : (GetRestrictedToken env p w).rc = ResultCode.WINC_OK)
    (hops : ∀ op ∈ ops, op.isMutator = false) :
    (GetRestrictedToken env
        (run env ops ((GetRestrictedToken env p w).policy, (GetRestrictedToken env p w).world)).1
        (run env ops ((GetRestrictedToken env p w).policy, (GetRestrictedToken env p w).world)).2).rc
      = ResultCode.WINC_OK ∧
    (GetRestrictedToken env
        (run env ops ((GetRestrictedToken env p w).policy, (GetRestrictedToken env p w).world)).1
        (run env ops ((GetRestrictedToken env p w).policy, (GetRestrictedToken env p w).world)).2).out
      = (GetRestrictedToken env p w).out ∧
    (GetRestrictedToken env p w).out ≠ none ∧
    (GetRestrictedToken env
        (run env ops ((GetRestrictedToken env p w).policy, (GetRestrictedToken env p w).world)).1
        (run env ops ((GetRestrictedToken env p w).policy, (GetRestrictedToken env p w).world)).2).world
      = (run env ops ((GetRestrictedToken env p w).policy, (GetRestrictedToken env p w).world)).2 ∧
    (GetRestrictedToken env
        (run env ops ((GetRestrictedToken env p w).policy, (GetRestrictedToken env p w).world)).1
        (run env ops ((GetRestrictedToken env p w).policy, (GetRestrictedToken env p w).world)).2).policy
      = (run env ops ((GetRestrictedToken env p w).policy, (GetRestrictedToken env p w).world)).1 := by
  obtain ⟨token, hout, hcached⟩ := GetRestrictedToken_ok_cached env p w hok
  have hkeep := run_keeps_token env token ops
    ((GetRestrictedToken env p w).policy, (GetRestrictedToken env p w).world) hops hcached
  rw [GetRestrictedToken_cached env _ _ token hkeep, hout]
  exact ⟨rfl, rfl, by simp, rfl, rfl⟩

theorem GetRestrictedToken_cache_hit_witness :
    firstGet.rc = ResultCode.WINC_OK ∧ firstGet.out = some 7 ∧
    (∀ op ∈ [Op.GetDesktop, Op.GetLogon, Op.MakeJobObject], op.isMutator = false) ∧
    (GetRestrictedToken envOk
        (run envOk [Op.GetDesktop, Op.GetLogon, Op.MakeJobObject]
          (firstGet.policy, firstGet.world)).1
        (run envOk [Op.GetDesktop, Op.GetLogon, Op.MakeJobObject]
          (firstGet.policy, firstGet.world)).2).out = some 7 ∧
    (GetRestrictedToken envOk
        (run envOk [Op.GetDesktop, Op.GetLogon, Op.MakeJobObject]
          (firstGet.policy, firstGet.world)).1
        (run envOk [Op.GetDesktop, Op.GetLogon, Op.MakeJobObject]
          (firstGet.policy, firstGet.world)).2).world
      = (run envOk [Op.GetDesktop, Op.GetLogon, Op.MakeJobObject]
          (firstGet.policy, firstGet.world)).2 :=
  ⟨by decide, by decide, by decide,
   (GetRestrictedToken_cache_hit envOk policy0 world0
      [Op.GetDesktop, Op.GetLogon, Op.MakeJobObject] (by decide) (by decide)).2.1,
   (GetRestrictedToken_cache_hit envOk policy0 world0
      [Op.GetDesktop, Op.GetLogon, Op.MakeJobObject] (by decide) (by decide)).2.2.2.1⟩

/-- C10 (error propagation): with no cached token, a failing logon resolution
makes `GetRestrictedToken` return that same code with no `FilterToken` call;
once the logon is resolved, `FilterToken` is called, right after, on the
current restriction list, and when it fails its code is returned; in both
cases `restricted_token_` is still empty afterwards; the call returns
`WINC_OK` exactly when both steps succeed. -/
theorem GetRestrictedToken_error_propagation (env : Env) (p : Policy) (w : World)
    (hcache : p.restricted_token_ = none) :
    ((GetLogon env p w).rc ≠ ResultCode.WINC_OK →
      (GetRestrictedToken env p w).rc = (GetLogon env p w).rc ∧
      (newEvents w (GetRestrictedToken env p w).world).filter Event.isFilterToken = [] ∧
      (GetRestrictedToken env p w).policy.restricted_token_ = none) ∧
    (∀ l, (GetLogon env p w).out = some l →
      (GetRestrictedToken env p w).world.trace
        = (GetLogon env p w).world.trace
            ++ [filterEvent env (GetLogon env p w).world.trace l p.restricted_sids_] ∧
      ((filterAnswer env (GetLogon env p w).world.trace l p.restricted_sids_).1
          ≠ ResultCode.WINC_OK →
        (GetRestrictedToken env p w).rc
          = (filterAnswer env (GetLogon env p w).world.trace l p.restricted_sids_).1 ∧
        (GetRestrictedToken env p w).policy.restricted_token_ = none)) ∧
    ((GetRestrictedToken env p w).rc = ResultCode.WINC_OK ↔
      (GetLogon env p w).rc = ResultCode.WINC_OK ∧
      ∃ l, (GetLogon env p w).out = some l ∧
        (filterAnswer env (GetLogon env p w).world.trace l p.restricted_sids_).1
          = ResultCode.WINC_OK) ∧
    ((GetRestrictedToken env p w).rc ≠ ResultCode.WINC_OK →
      (GetRestrictedToken env p w).out = none ∧
      (GetRestrictedToken env p w).policy.restricted_token_ = none) := by
  rcases GetRestrictedToken_uncached env p w hcache with
    ⟨hrc, heq⟩ | ⟨l, hg, hout, hpol, hcase⟩
  · obtain ⟨hp, ho, -⟩ := GetLogon_fail env p w hrc
    obtain ⟨ext, -, hno, hev⟩ := GetRestrictedToken_uncached_events env p w hcache
    refine ⟨fun _ => ⟨by rw [heq], ?_, by rw [heq, hp]; exact hcache⟩, ?_, ?_, ?_⟩
    · rcases hev with ⟨-, hev⟩ | ⟨l, hl, -⟩
      · rw [hev]
        exact filter_isFilterToken_eq_nil ext hno
      · rw [ho] at hl
        cases hl
    · intro l hl
      rw [ho] at hl
      cases hl
    · rw [heq]
      constructor
      · intro h
        exact absurd h hrc
      · intro h
        exact absurd h.1 hrc
    · intro _
      rw [heq, hp]
      exact ⟨rfl, hcache⟩
  · refine ⟨fun h => absurd hg h, ?_, ?_, ?_⟩
    · intro l2 hl2
      rw [hout] at hl2
      cases hl2
      rcases hcase with ⟨hf, heq⟩ | ⟨hf, heq⟩
      · rw [heq]
        exact ⟨rfl, fun _ => ⟨rfl, hcache⟩⟩
      · rw [heq]
        exact ⟨rfl, fun h => absurd hf h⟩
    · rcases hcase with ⟨hf, heq⟩ | ⟨hf, heq⟩
      · rw [heq]
        constructor
        · intro h
          exact absurd h hf
        · rintro ⟨-, l2, hl2, hf2⟩
          rw [hout] at hl2
          cases hl2
          exact hf2
      · rw [heq]
        exact ⟨fun _ => ⟨hg, l, hout, hf⟩, fun _ => rfl⟩
    · rcases hcase with ⟨hf, heq⟩ | ⟨hf, heq⟩
      · rw [heq]
        exact fun _ => ⟨rfl, hcache⟩
      · rw [heq]
        intro h
        exact absurd rfl h

theorem GetRestrictedToken_error_propagation_witness :
    policy0.restricted_token_ = none ∧
    (GetRestrictedToken envLogonFails policy0 world0).rc = ResultCode.WINC_ERROR 3 ∧
    (GetRestrictedToken envFilterFails policy0 world0).rc = ResultCode.WINC_ERROR 5 ∧
    ((GetRestrictedToken envFilterFails policy0 world0).rc ≠ ResultCode.WINC_OK →
      (GetRestrictedToken envFilterFails policy0 world0).out = none ∧
      (GetRestrictedToken envFilterFails policy0 world0).policy.restricted_token_ = none) ∧
    ((GetRestrictedToken envOk policy0 world0).rc = ResultCode.WINC_OK ↔
      (GetLogon envOk policy0 world0).rc = ResultCode.WINC_OK ∧
      ∃ l, (GetLogon envOk policy0 world0).out = some l ∧
        (filterAnswer envOk (GetLogon envOk policy0 world0).world.trace l
          policy0.restricted_sids_).1 = ResultCode.WINC_OK) :=
  ⟨rfl, by decide, by decide,
   (GetRestrictedToken_error_propagation envFilterFails policy0 world0 rfl).2.2.2,
   (GetRestrictedToken_error_propagation envOk policy0 world0 rfl).2.2.1⟩


theorem GetLogon_policy_cases (env : Env) (p : Policy) (w : World) :
    (GetLogon env p w).policy = p ∨
    (p.logon_ = none ∧ ∃ l, (GetLogon env p w).out = some l ∧
      (GetLogon env p w).policy = { p with logon_ := some l }) := by
  by_cases hrc : (GetLogon env p w).rc = ResultCode.WINC_OK
  · cases hl : p.logon_ with
    | some l =>
      left
      rw [GetLogon_cached env p w l hl]
    | none =>
      right
      exact ⟨rfl, GetLogon_ok env p w hrc⟩
  · exact Or.inl (GetLogon_fail env p w hrc).1

theorem GetRestrictedToken_trace (env : Env) (p : Policy) (w : World) :
    ∃ ext, (GetRestrictedToken env p w).world.trace = w.trace ++ ext := by
  cases hc : p.restricted_token_ with
  | some token =>
    rw [GetRestrictedToken_cached env p w token hc]
    exact ⟨[], by simp⟩
  | none =>
    obtain ⟨e0, he0, -⟩ := GetLogon_trace env p w
    rcases GetRestrictedToken_uncached env p w hc with ⟨-, heq⟩ | ⟨l, -, -, -, hcase⟩
    · rw [heq]
      exact ⟨e0, he0⟩
    · rcases hcase with ⟨-, heq⟩ | ⟨-, heq⟩ <;>
      · rw [heq]
        exact ⟨_, by simp only [World.emit, he0, List.append_assoc]; rfl⟩

theorem release_restricted_token_trace (o : Option HANDLE) (w : World) :
    ∃ ext, (release_restricted_token o w).trace = w.trace ++ ext := by
  cases o with
  | none => exact ⟨[], by simp [release_restricted_token]⟩
  | some h => exact ⟨_, rfl⟩

theorem SetLogon_trace (logon : Option Logon) (p : Policy) (w : World) :
    ∃ ext, (SetLogon logon p w).2.trace = w.trace ++ ext := by
  unfold SetLogon
  simp only
  cases p.logon_ <;> cases p.restricted_token_ <;> cases p.alternate_desktop_ <;>
    exact ⟨_, by
      simp only [release_logon, release_restricted_token, release_alternate_desktop,
        World.emit, List.append_assoc]
      first
        | rfl
        | exact (List.append_nil _).symm⟩

/-- Every call only appends to the history. -/
theorem step_trace (env : Env) (op : Op) (s : Policy × World) :
    ∃ ext, (step env op s).2.trace = s.2.trace ++ ext := by
  cases op with
  | GetLogon =>
    obtain ⟨ext, h, -⟩ := GetLogon_trace env s.1 s.2
    exact ⟨ext, h⟩
  | SetLogon l => exact SetLogon_trace l s.1 s.2
  | AddRestrictSid sid => exact release_restricted_token_trace _ _
  | RemoveRestrictSid sid => exact release_restricted_token_trace _ _
  | GetRestrictedToken => exact GetRestrictedToken_trace env s.1 s.2
  | GetDesktop => exact GetDesktop_trace env s.1 s.2
  | MakeJobObject => exact MakeJobObject_trace env s.1 s.2

/-- I1 carries over to a later state that has the same restriction entries and
the same cached token, and the same logon when a token is cached. -/
theorem I1_carry (env : Env) (w0 : World) (p q : Policy) (w v : World)
    (h : I1 env w0 p w) (hext : ∃ ext, v.trace = w.trace ++ ext)
    (htok : q.restricted_token_ = p.restricted_token_)
    (hsids : q.restricted_sids_ = p.restricted_sids_)
    (hlogon : p.restricted_token_ ≠ none → q.logon_ = p.logon_) : I1 env w0 q v := by
  intro token ht
  rw [htok] at ht
  obtain ⟨logon, pre, post, h1, h2, h3⟩ := h token ht
  obtain ⟨ext, hv⟩ := hext
  refine ⟨logon, pre, post ++ ext, ?_, ?_, ?_⟩
  · rw [hlogon (by rw [ht]; simp), h1]
  · rw [hv, h2, hsids]
    simp
  · rw [hsids]
    exact h3

theorem I1_of_no_token (env : Env) (w0 : World) (q : Policy) (v : World)
    (h : q.restricted_token_ = none) : I1 env w0 q v := by
  intro token ht
  rw [h] at ht
  cases ht

/-- Every call preserves I1. -/
theorem step_I1 (env : Env) (w0 : World) (op : Op) (s : Policy × World)
    (hext : ∃ ext, s.2.trace = w0.trace ++ ext) (h : I1 env w0 s.1 s.2) :
    I1 env w0 (step env op s).1 (step env op s).2 := by
  have hlogon_of_token : s.1.restricted_token_ ≠ none → ∃ l, s.1.logon_ = some l := by
    intro hne
    cases ht : s.1.restricted_token_ with
    | none => exact absurd ht hne
    | some token =>
      obtain ⟨l, -, -, hl, -⟩ := h token ht
      exact ⟨l, hl⟩
  have hGetLogon : (GetLogon env s.1 s.2).policy.restricted_token_ = s.1.restricted_token_ ∧
      (GetLogon env s.1 s.2).policy.restricted_sids_ = s.1.restricted_sids_ ∧
      (s.1.restricted_token_ ≠ none → (GetLogon env s.1 s.2).policy.logon_ = s.1.logon_) := by
    rcases GetLogon_policy_cases env s.1 s.2 with hp | ⟨hnone, l, -, hp⟩
    · rw [hp]
      exact ⟨rfl, rfl, fun _ => rfl⟩
    · rw [hp]
      refine ⟨rfl, rfl, fun hne => ?_⟩
      obtain ⟨l0, hl0⟩ := hlogon_of_token hne
      rw [hnone] at hl0
      cases hl0
  cases op with
  | GetLogon =>
    exact I1_carry env w0 s.1 _ s.2 _ h (step_trace env Op.GetLogon s) hGetLogon.1 hGetLogon.2.1
      hGetLogon.2.2
  | SetLogon l => exact I1_of_no_token env w0 _ _ rfl
  | AddRestrictSid sid => exact I1_of_no_token env w0 _ _ rfl
  | RemoveRestrictSid sid => exact I1_of_no_token env w0 _ _ rfl
  | GetRestrictedToken =>
    simp only [step]
    cases hc : s.1.restricted_token_ with
    | some token =>
      rw [GetRestrictedToken_cached env s.1 s.2 token hc]
      exact h
    | none =>
      rcases GetRestrictedToken_uncached env s.1 s.2 hc with ⟨-, heq⟩ | ⟨l, -, -, -, hcase⟩
      · rw [heq]
        exact I1_of_no_token env w0 _ _ (by rw [hGetLogon.1, hc])
      · rcases hcase with ⟨-, heq⟩ | ⟨hf, heq⟩
        · rw [heq]
          exact I1_of_no_token env w0 _ _ hc
        · rw [heq]
          obtain ⟨e0, he0⟩ := hext
          obtain ⟨e1, he1, -⟩ := GetLogon_trace env s.1 s.2
          have htr : (GetLogon env s.1 s.2).world.trace = w0.trace ++ (e0 ++ e1) := by
            rw [he1, he0, List.append_assoc]
          intro token ht
          simp only [Option.some.injEq] at ht
          rw [htr] at hf ht
          refine ⟨l, e0 ++ e1, [], rfl, ?_, ?_⟩
          · simp only [World.emit, htr, filterEvent, hf, ht, List.append_assoc]
          · simp only
            rw [← ht, ← hf]
            rfl
  | GetDesktop =>
    simp only [step]
    have hg := I1_carry env w0 s.1 (GetLogon env s.1 s.2).policy s.2 (GetDesktop env s.1 s.2).world
      h (GetDesktop_trace env s.1 s.2) hGetLogon.1 hGetLogon.2.1 hGetLogon.2.2
    have hp := I1_carry env w0 s.1 s.1 s.2 (GetDesktop env s.1 s.2).world
      h (GetDesktop_trace env s.1 s.2) rfl rfl (fun _ => rfl)
    rcases GetDesktop_policy env s.1 s.2 with ⟨-, hq | ⟨d, hq⟩ | ⟨d, hq⟩⟩ | ⟨-, -, hq⟩
    · rw [hq]; exact hp
    · rw [hq]
      exact I1_carry env w0 s.1 _ _ _ hp ⟨[], by simp⟩ rfl rfl (fun _ => rfl)
    · rw [hq]
      exact I1_carry env w0 _ _ _ _ hg ⟨[], by simp⟩ rfl rfl (fun _ => rfl)
    · rw [hq]; exact hg
  | MakeJobObject =>
    simp only [step]
    rw [MakeJobObject_policy]
    exact I1_carry env w0 s.1 s.1 s.2 _ h (MakeJobObject_trace env s.1 s.2) rfl rfl (fun _ => rfl)

/-- I1 holds, and the history only grows, along every sequence of calls. -/
theorem run_I1 (env : Env) (w0 : World) :
    ∀ (ops : List Op) (s : Policy × World), (∃ ext, s.2.trace = w0.trace ++ ext) →
      I1 env w0 s.1 s.2 →
      (∃ ext, (run env ops s).2.trace = w0.trace ++ ext) ∧
      I1 env w0 (run env ops s).1 (run env ops s).2 := by
  intro ops
  induction ops with
  | nil => intro s hext h; exact ⟨hext, h⟩
  | cons op ops ih =>
    intro s hext h
    simp only [run, List.foldl_cons]
    refine ih (step env op s) ?_ (step_I1 env w0 op s hext h)
    obtain ⟨e0, he0⟩ := hext
    obtain ⟨e1, he1⟩ := step_trace env op s
    exact ⟨e0 ++ e1, by rw [he1, he0, List.append_assoc]⟩

theorem run_create_I1 (env : Env) (use_desktop : Bool) (basic ui : DWORD) (w0 : World)
    (ops : List Op) :
    I1 env w0 (run env ops (Policy.create use_desktop basic ui, w0)).1
      (run env ops (Policy.create use_desktop basic ui, w0)).2 :=
  (run_I1 env w0 ops _ ⟨[], by simp⟩ (I1_of_no_token env w0 _ _ rfl)).2


/-- With a logon present and no cached token, `GetRestrictedToken` makes one
`FilterToken` call, on that logon and the current restriction entries, and
returns what the call answered. -/
theorem GetRestrictedToken_fresh (env : Env) (p : Policy) (w : World) (l : Logon)
    (hl : p.logon_ = some l) (hc : p.restricted_token_ = none) :
    (GetRestrictedToken env p w).world.trace
      = w.trace ++ [filterEvent env w.trace l p.restricted_sids_] ∧
    (GetRestrictedToken env p w).rc = (filterAnswer env w.trace l p.restricted_sids_).1 ∧
    ((GetRestrictedToken env p w).rc = ResultCode.WINC_OK →
      (GetRestrictedToken env p w).out = some (filterAnswer env w.trace l p.restricted_sids_).2 ∧
      (GetRestrictedToken env p w).policy.restricted_token_
        = some (filterAnswer env w.trace l p.restricted_sids_).2) := by
  have hg := GetLogon_cached env p w l hl
  rcases GetRestrictedToken_uncached env p w hc with ⟨hrc, -⟩ | ⟨l2, -, hout, -, hcase⟩
  · rw [hg] at hrc
    exact absurd rfl hrc
  · rw [hg] at hout hcase
    simp only [Option.some.injEq] at hout
    subst hout
    rcases hcase with ⟨hf, heq⟩ | ⟨hf, heq⟩
    · rw [heq]
      exact ⟨rfl, rfl, fun h => absurd h hf⟩
    · rw [heq]
      exact ⟨rfl, hf.symm, fun _ => ⟨rfl, rfl⟩⟩

/-- C6 (invariant I1): in every state reached from a newly created Policy by
any sequence of `GetLogon`, `SetLogon`, `AddRestrictSid`, `RemoveRestrictSid`,
`GetRestrictedToken`, `GetDesktop` and `MakeJobObject` calls, a cached
restricted token comes with a logon, and it is the token that a `FilterToken`
call of this Policy, answered `WINC_OK`, produced for that current logon and
the list built from the current restriction entries (one `(sid, 0)` pair per
entry when the size fits 32 bits). -/
theorem restricted_token_is_filter_of_current (env : Env) (use_desktop : Bool)
    (basic ui : DWORD) (w0 : World) (ops : List Op) (p : Policy) (w : World) (token : HANDLE)
    (hrun : run env ops (Policy.create use_desktop basic ui, w0) = (p, w))
    (htoken : p.restricted_token_ = some token) :
    ∃ logon pre post, p.logon_ = some logon ∧
      w.trace = w0.trace ++ pre ++
        Event.Logon_FilterToken logon (sids_to_restrict p.restricted_sids_)
          ((sids_to_restrict p.restricted_sids_).length % 2 ^ 32) ResultCode.WINC_OK token
          :: post ∧
      env.Logon_FilterToken (w0.trace ++ pre) logon (sids_to_restrict p.restricted_sids_)
          ((sids_to_restrict p.restricted_sids_).length % 2 ^ 32)
        = (ResultCode.WINC_OK, token) ∧
      (p.restricted_sids_.length < 2 ^ 32 →
        sids_to_restrict p.restricted_sids_ = p.restricted_sids_.map sidPair) := by
  have h := run_create_I1 env use_desktop basic ui w0 ops
  rw [hrun] at h
  obtain ⟨logon, pre, post, h1, h2, h3⟩ := h token htoken
  exact ⟨logon, pre, post, h1, h2, h3, sids_to_restrict_eq_map p.restricted_sids_⟩

theorem restricted_token_is_filter_of_current_witness :
    (run envOk [Op.AddRestrictSid sidA, Op.GetRestrictedToken, Op.GetDesktop]
        (Policy.create true 0 0, world0)).1.restricted_token_ = some 7 ∧
    ∃ logon pre post,
      (run envOk [Op.AddRestrictSid sidA, Op.GetRestrictedToken, Op.GetDesktop]
          (Policy.create true 0 0, world0)).1.logon_ = some logon ∧
      (run envOk [Op.AddRestrictSid sidA, Op.GetRestrictedToken, Op.GetDesktop]
          (Policy.create true 0 0, world0)).2.trace = world0.trace ++ pre ++
        Event.Logon_FilterToken logon (sids_to_restrict [sidA])
          ((sids_to_restrict [sidA]).length % 2 ^ 32) ResultCode.WINC_OK 7 :: post ∧
      envOk.Logon_FilterToken (world0.trace ++ pre) logon (sids_to_restrict [sidA])
          ((sids_to_restrict [sidA]).length % 2 ^ 32)
        = (ResultCode.WINC_OK, 7) ∧
      ([sidA].length < 2 ^ 32 → sids_to_restrict [sidA] = [sidA].map sidPair) :=
  ⟨by decide,
   restricted_token_is_filter_of_current envOk true 0 0 world0
    [Op.AddRestrictSid sidA, Op.GetRestrictedToken, Op.GetDesktop]
    (run envOk [Op.AddRestrictSid sidA, Op.GetRestrictedToken, Op.GetDesktop]
      (Policy.create true 0 0, world0)).1
    (run envOk [Op.AddRestrictSid sidA, Op.GetRestrictedToken, Op.GetDesktop]
      (Policy.create true 0 0, world0)).2
    7 rfl (by decide)⟩

/-- C7 (invalidation, P2 and P3): in a state reached from a newly created
Policy, after a successful `GetRestrictedToken`, one `SetLogon(y)` with a
logon `y`, `AddRestrictSid(e)` or `RemoveRestrictSid(e)` makes the next
`GetRestrictedToken` perform exactly one new `FilterToken` call, on the logon
then current (`y` after `SetLogon(y)`, the unchanged logon otherwise) with the
list built from the restriction entries then current, and return what that
call answers, not the token cached before. -/
theorem mutation_forces_new_FilterToken (env : Env) (use_desktop : Bool) (basic ui : DWORD)
    (w0 : World) (ops : List Op) (m : Op) (s s2 : Policy × World) (r1 r2 : Ret HANDLE)
    (hs : s = run env ops (Policy.create use_desktop basic ui, w0))
    (hr1 : r1 = GetRestrictedToken env s.1 s.2)
    (hok : r1.rc = ResultCode.WINC_OK)
    (hm : (∃ y, m = Op.SetLogon (some y)) ∨ (∃ e, m = Op.AddRestrictSid e) ∨
      (∃ e, m = Op.RemoveRestrictSid e))
    (hs2 : s2 = step env m (r1.policy, r1.world))
    (hr2 : r2 = GetRestrictedToken env s2.1 s2.2) :
    ∃ logon, s2.1.logon_ = some logon ∧
      (∀ y, m = Op.SetLogon (some y) → logon = y) ∧
      ((∀ y, m ≠ Op.SetLogon y) → r1.policy.logon_ = some logon) ∧
      r2.world.trace = s2.2.trace ++ [filterEvent env s2.2.trace logon s2.1.restricted_sids_] ∧
      r2.rc = (filterAnswer env s2.2.trace logon s2.1.restricted_sids_).1 ∧
      (r2.rc = ResultCode.WINC_OK →
        r2.out = some (filterAnswer env s2.2.trace logon s2.1.restricted_sids_).2 ∧
        r2.policy.restricted_token_
          = some (filterAnswer env s2.2.trace logon s2.1.restricted_sids_).2) := by
  have hinv : I1 env w0 r1.policy r1.world := by
    have h := run_create_I1 env use_desktop basic ui w0 (ops ++ [Op.GetRestrictedToken])
    simp only [run, List.foldl_append, List.foldl_cons, List.foldl_nil] at h
    rw [hr1, hs]
    exact h
  obtain ⟨token, -, hcached⟩ := GetRestrictedToken_ok_cached env s.1 s.2 (by rw [← hr1]; exact hok)
  rw [← hr1] at hcached
  obtain ⟨l1, -, -, hl1, -⟩ := hinv token hcached
  rcases hm with ⟨y, rfl⟩ | ⟨e, rfl⟩ | ⟨e, rfl⟩
  · have hl : s2.1.logon_ = some y := by rw [hs2]; rfl
    have hc : s2.1.restricted_token_ = none := by rw [hs2]; rfl
    obtain ⟨a, b, c⟩ := GetRestrictedToken_fresh env s2.1 s2.2 y hl hc
    rw [← hr2] at a b c
    refine ⟨y, hl, ?_, ?_, a, b, c⟩
    · intro y2 h2
      simp only [Op.SetLogon.injEq, Option.some.injEq] at h2
      exact h2
    · intro h2
      exact absurd rfl (h2 (some y))
  · have hl : s2.1.logon_ = some l1 := by rw [hs2]; exact hl1
    have hc : s2.1.restricted_token_ = none := by rw [hs2]; rfl
    obtain ⟨a, b, c⟩ := GetRestrictedToken_fresh env s2.1 s2.2 l1 hl hc
    rw [← hr2] at a b c
    refine ⟨l1, hl, ?_, fun _ => hl1, a, b, c⟩
    intro y2 h2
    cases h2
  · have hl : s2.1.logon_ = some l1 := by rw [hs2]; exact hl1
    have hc : s2.1.restricted_token_ = none := by rw [hs2]; rfl
    obtain ⟨a, b, c⟩ := GetRestrictedToken_fresh env s2.1 s2.2 l1 hl hc
    rw [← hr2] at a b c
    refine ⟨l1, hl, ?_, fun _ => hl1, a, b, c⟩
    intro y2 h2
    cases h2

theorem mutation_forces_new_FilterToken_witness :
    firstGet.rc = ResultCode.WINC_OK ∧
    ∃ logon, afterSetLogon.1.logon_ = some logon ∧
      (∀ y, Op.SetLogon (some ⟨40⟩) = Op.SetLogon (some y) → logon = y) ∧
      (GetRestrictedToken envOk afterSetLogon.1 afterSetLogon.2).world.trace
        = afterSetLogon.2.trace
          ++ [filterEvent envOk afterSetLogon.2.trace logon afterSetLogon.1.restricted_sids_] ∧
      (GetRestrictedToken envOk afterSetLogon.1 afterSetLogon.2).rc
        = (filterAnswer envOk afterSetLogon.2.trace logon afterSetLogon.1.restricted_sids_).1 :=
  ⟨by decide,
   (mutation_forces_new_FilterToken envOk false 0 0 world0 [] (Op.SetLogon (some ⟨40⟩))
      (policy0, world0) afterSetLogon firstGet
      (GetRestrictedToken envOk afterSetLogon.1 afterSetLogon.2)
      rfl rfl (by decide) (Or.inl ⟨⟨40⟩, rfl⟩) rfl rfl).imp
    fun _ h => ⟨h.1, h.2.1, h.2.2.2.1, h.2.2.2.2.1⟩⟩

/-- C9 (amended): a failed `GetRestrictedToken` or `GetDesktop` call had no
cached object of its own to return, still has none afterwards, and leaves
every member of the Policy other than `logon_` as it was (`restricted_sids_`,
`restricted_token_`, `default_desktop_`, `alternate_desktop_`, the desktop
mode and the job limits).  `logon_` is unchanged as well when a logon was
present before the call or when the logon could not be created; when the logon
was absent and its creation succeeded before a later step failed, `logon_`
holds the new logon after the failed call. -/
theorem failed_call_keeps_all_but_logon (env : Env) (p : Policy) (w : World) :
    ((GetRestrictedToken env p w).rc ≠ ResultCode.WINC_OK →
      p.restricted_token_ = none ∧
      (GetRestrictedToken env p w).policy.restricted_token_ = none ∧
      (GetRestrictedToken env p w).policy
        = { p with logon_ := (GetRestrictedToken env p w).policy.logon_ } ∧
      (p.logon_ ≠ none ∨ (GetLogon env p w).rc ≠ ResultCode.WINC_OK →
        (GetRestrictedToken env p w).policy = p) ∧
      (p.logon_ = none → (GetLogon env p w).rc = ResultCode.WINC_OK →
        ∃ l, (GetLogon env p w).out = some l ∧
          (GetRestrictedToken env p w).policy.logon_ = some l)) ∧
    ((GetDesktop env p w).rc ≠ ResultCode.WINC_OK →
      p.alternate_desktop_ = none ∧
      (GetDesktop env p w).policy.alternate_desktop_ = none ∧
      (GetDesktop env p w).policy = { p with logon_ := (GetDesktop env p w).policy.logon_ } ∧
      (p.logon_ ≠ none ∨ (GetLogon env p w).rc ≠ ResultCode.WINC_OK →
        (GetDesktop env p w).policy = p) ∧
      (p.logon_ = none → (GetLogon env p w).rc = ResultCode.WINC_OK →
        ∃ l, (GetLogon env p w).out = some l ∧
          (GetDesktop env p w).policy.logon_ = some l)) := by
  have hg : (GetLogon env p w).policy = { p with logon_ := (GetLogon env p w).policy.logon_ } ∧
      (p.logon_ ≠ none ∨ (GetLogon env p w).rc ≠ ResultCode.WINC_OK →
        (GetLogon env p w).policy = p) ∧
      (p.logon_ = none → (GetLogon env p w).rc = ResultCode.WINC_OK →
        ∃ l, (GetLogon env p w).out = some l ∧ (GetLogon env p w).policy.logon_ = some l) := by
    refine ⟨?_, ?_, ?_⟩
    · rcases GetLogon_policy_cases env p w with hp | ⟨-, l, -, hp⟩ <;> rw [hp]
    · rintro (hne | hrc)
      · rcases GetLogon_policy_cases env p w with hp | ⟨hnone, -⟩
        · exact hp
        · exact absurd hnone hne
      · exact (GetLogon_fail env p w hrc).1
    · intro _ hrc
      obtain ⟨l, hout, hp⟩ := GetLogon_ok env p w hrc
      exact ⟨l, hout, by rw [hp]⟩
  constructor
  · intro hfail
    have hc : p.restricted_token_ = none := by
      by_contra hne
      obtain ⟨token, ht⟩ := Option.ne_none_iff_exists'.mp hne
      rw [GetRestrictedToken_cached env p w token ht] at hfail
      exact hfail rfl
    have hpol : (GetRestrictedToken env p w).policy = (GetLogon env p w).policy := by
      rcases GetRestrictedToken_uncached env p w hc with ⟨-, heq⟩ | ⟨l, -, -, hp, hcase⟩
      · rw [heq]
      · rcases hcase with ⟨-, heq⟩ | ⟨hf, heq⟩
        · rw [heq, hp]
        · rw [heq] at hfail
          exact absurd rfl hfail
    rw [hpol]
    exact ⟨hc, by rw [hg.1]; exact hc, hg⟩
  · intro hfail
    rcases GetDesktop_policy env p w with ⟨hok, -⟩ | ⟨-, hnone, hpol⟩
    · exact absurd hok hfail
    · rw [hpol]
      exact ⟨hnone, by rw [hg.1]; exact hnone, hg⟩

/-- C9 (as stated) fails: on a newly created Policy, when the logon is created
and `FilterToken` then fails, `GetRestrictedToken` returns the failure code
and the Policy is no longer the one before the call, since `logon_` now holds
the new logon; the same happens to `GetDesktop` in isolated mode when `Init`
of the alternate desktop fails. -/
theorem failed_call_changes_logon :
    (GetRestrictedToken envFilterFails policy0 world0).rc
      = ResultCode.WINC_ERROR 5 ∧
    policy0.logon_ = none ∧
    (GetRestrictedToken envFilterFails policy0 world0).policy.logon_
      = some ⟨0⟩ ∧
    (GetRestrictedToken envFilterFails policy0 world0).policy
      ≠ policy0 ∧
    (GetDesktop envDesktopFails (Policy.create true 0 0) world0).rc
      = ResultCode.WINC_ERROR 4 ∧
    (GetDesktop envDesktopFails (Policy.create true 0 0) world0).policy.logon_ = some ⟨0⟩ ∧
    (GetDesktop envDesktopFails (Policy.create true 0 0) world0).policy
      ≠ Policy.create true 0 0 := by
  decide


/-- With nothing equal to `sid` before the last element `sid`, `std::find`
stops at that last element, whatever the argument refers to. -/
theorem std_find_appended (l : List Sid) (sid : Sid) (arg : SidRef)
    (harg : arg.read (l ++ [sid]) = some sid) (h : sid ∉ l) :
    std_find (l ++ [sid]) 0 (l ++ [sid]).length arg = l.length := by
  have hsame : ∀ (fuel first : Nat),
      std_find_loop (l ++ [sid]) (l ++ [sid]).length arg fuel first
        = std_find_loop (l ++ [sid]) (l ++ [sid]).length (SidRef.outside sid) fuel first := by
    intro fuel
    induction fuel with
    | zero => intro first; rfl
    | succ n ih =>
      intro first
      unfold std_find_loop
      rw [harg, ih (first + 1)]
      rfl
  obtain ⟨-, h2, h3, h4⟩ := std_find_loop_spec (l ++ [sid]) sid (l ++ [sid]).length 0 (by simp)
  unfold std_find
  rw [Nat.sub_zero, hsame]
  generalize std_find_loop (l ++ [sid]) (l ++ [sid]).length (SidRef.outside sid)
    (l ++ [sid]).length 0 = r at h2 h3 h4
  simp only [List.drop_zero, List.length_append, List.length_singleton] at h2 h3 h4
  rcases Nat.lt_trichotomy r l.length with hlt | heq | hgt
  · exfalso
    have := h4 (by omega)
    rw [List.getElem?_append_left hlt] at this
    exact h (List.getElem?_mem this)
  · exact heq
  · exfalso
    have hr : r = l.length + 1 := by omega
    have hall : (l ++ [sid]).take r = l ++ [sid] := by
      rw [hr]
      exact List.take_of_length_le (by simp)
    rw [hall] at h3
    exact h3 sid (by simp) rfl

/-- C20 (round trip): when `sid` does not occur in `restricted_sids_`,
`AddRestrictSid(sid)` followed by `RemoveRestrictSid(sid)`, whatever object of
value `sid` the argument of the latter refers to, gives back exactly the old
list and leaves `restricted_token_` empty. -/
theorem Add_then_Remove_restores (sid : Sid) (arg : SidRef) (p : Policy) (w : World)
    (h : sid ∉ p.restricted_sids_)
    (harg : arg.read (AddRestrictSid sid p w).1.restricted_sids_ = some sid) :
    (RemoveRestrictSid arg (AddRestrictSid sid p w).1
        (AddRestrictSid sid p w).2).1.restricted_sids_ = p.restricted_sids_ ∧
    (RemoveRestrictSid arg (AddRestrictSid sid p w).1
        (AddRestrictSid sid p w).2).1.restricted_token_ = none := by
  refine ⟨?_, rfl⟩
  have hadd : (AddRestrictSid sid p w).1.restricted_sids_ = p.restricted_sids_ ++ [sid] := rfl
  rw [hadd] at harg
  have hfind := std_find_appended p.restricted_sids_ sid arg harg h
  simp only [RemoveRestrictSid, hadd, std_remove, hfind]
  rw [if_pos (by simp)]
  unfold std_remove_loop
  simp [vector_erase]

theorem Add_then_Remove_restores_witness :
    sidB ∉ twoAdds.1.restricted_sids_ ∧
    (SidRef.element 2).read (AddRestrictSid sidB twoAdds.1 twoAdds.2).1.restricted_sids_
      = some sidB ∧
    (RemoveRestrictSid (SidRef.element 2) (AddRestrictSid sidB twoAdds.1 twoAdds.2).1
        (AddRestrictSid sidB twoAdds.1 twoAdds.2).2).1.restricted_sids_ = [sidA, sidA] ∧
    (RemoveRestrictSid (SidRef.element 2) (AddRestrictSid sidB twoAdds.1 twoAdds.2).1
        (AddRestrictSid sidB twoAdds.1 twoAdds.2).2).1.restricted_token_ = none :=
  ⟨by decide, by decide,
   Add_then_Remove_restores sidB (SidRef.element 2) twoAdds.1 twoAdds.2 (by decide) (by decide)⟩

/-- C14: with no logon cached, `GetLogon` constructs a `CurrentLogon` and calls
`Init` on it with `SECURITY_MANDATORY_LOW_RID`; when `Init` fails its code is
returned as it is, the object is destroyed and `logon_` stays empty; when it
succeeds the new logon is cached and returned.  With a logon present (cached
or set by `SetLogon`) that logon is returned and nothing is called.  Hence a
second call after a successful one returns the same logon and appends no
event, so the two calls together make at most one `Init` call. -/
theorem GetLogon_lazy_once (env : Env) (p : Policy) (w : World) :
    (p.logon_ = none →
      (env.Logon_Init (w.trace ++ [Event.new_CurrentLogon ⟨w.next⟩]) ⟨w.next⟩
            SECURITY_MANDATORY_LOW_RID ≠ ResultCode.WINC_OK →
        GetLogon env p w
          = ⟨env.Logon_Init (w.trace ++ [Event.new_CurrentLogon ⟨w.next⟩]) ⟨w.next⟩
                SECURITY_MANDATORY_LOW_RID,
              none, p,
              ⟨w.trace ++ [Event.new_CurrentLogon ⟨w.next⟩,
                  Event.Logon_Init ⟨w.next⟩ SECURITY_MANDATORY_LOW_RID
                    (env.Logon_Init (w.trace ++ [Event.new_CurrentLogon ⟨w.next⟩]) ⟨w.next⟩
                      SECURITY_MANDATORY_LOW_RID),
                  Event.delete_Logon ⟨w.next⟩],
                w.next + 1⟩⟩) ∧
      (env.Logon_Init (w.trace ++ [Event.new_CurrentLogon ⟨w.next⟩]) ⟨w.next⟩
            SECURITY_MANDATORY_LOW_RID = ResultCode.WINC_OK →
        GetLogon env p w
          = ⟨ResultCode.WINC_OK, some ⟨w.next⟩, { p with logon_ := some ⟨w.next⟩ },
              ⟨w.trace ++ [Event.new_CurrentLogon ⟨w.next⟩,
                  Event.Logon_Init ⟨w.next⟩ SECURITY_MANDATORY_LOW_RID ResultCode.WINC_OK],
                w.next + 1⟩⟩)) ∧
    (∀ l, p.logon_ = some l → GetLogon env p w = ⟨ResultCode.WINC_OK, some l, p, w⟩) ∧
    ((GetLogon env p w).rc = ResultCode.WINC_OK →
      GetLogon env (GetLogon env p w).policy (GetLogon env p w).world
        = ⟨ResultCode.WINC_OK, (GetLogon env p w).out, (GetLogon env p w).policy,
            (GetLogon env p w).world⟩ ∧
      (newEvents w
          (GetLogon env (GetLogon env p w).policy (GetLogon env p w).world).world).countP
        Event.isLogonInit ≤ 1) ∧
    SECURITY_MANDATORY_LOW_RID = 0x1000 := by
  refine ⟨fun hnone => ⟨fun hrc => ?_, fun hrc => ?_⟩, fun l hl => GetLogon_cached env p w l hl,
    fun hok => ?_, rfl⟩
  · unfold GetLogon
    simp only [hnone, World.emit, World.alloc, hrc, ne_eq, not_false_eq_true, if_true,
      List.append_assoc, List.cons_append, List.nil_append]
  · unfold GetLogon
    simp only [hnone, World.emit, World.alloc, hrc, ne_eq, not_true_eq_false, if_false,
      List.append_assoc, List.cons_append, List.nil_append]
  · obtain ⟨l, hout, hpol⟩ := GetLogon_ok env p w hok
    have hsecond := GetLogon_cached env (GetLogon env p w).policy (GetLogon env p w).world l
      (by rw [hpol])
    rw [hsecond, hout]
    refine ⟨rfl, ?_⟩
    cases hl : p.logon_ with
    | some l0 =>
      rw [GetLogon_cached env p w l0 hl]
      simp [newEvents]
    | none =>
      unfold GetLogon
      simp only [hl]
      split
      · simp [newEvents, World.emit, World.alloc, Event.isLogonInit]
      · simp [newEvents, World.emit, World.alloc, Event.isLogonInit]

theorem GetLogon_out_some (env : Env) (p : Policy) (w : World) (l : Logon)
    (h : (GetLogon env p w).out = some l) :
    (GetLogon env p w).rc = ResultCode.WINC_OK ∧
    (GetLogon env p w).policy = { p with logon_ := some l } := by
  by_cases hrc : (GetLogon env p w).rc = ResultCode.WINC_OK
  · obtain ⟨l2, hout, hpol⟩ := GetLogon_ok env p w hrc
    rw [hout] at h
    cases h
    exact ⟨hrc, hpol⟩
  · rw [(GetLogon_fail env p w hrc).2.1] at h
    cases h

/-- The four ways `GetDesktop` ends in isolated mode when no alternate desktop
is cached and the logon is resolved: `d` is the new desktop, `tr1`, `tr2`,
`tr3` the histories at the `Init` call and at the two `GrantAccess` calls,
`rc1`, `rc2`, `rc3` the answers to them. -/
theorem GetDesktop_isolated (env : Env) (p : Policy) (w : World) (logon : Logon)
    (d : AlternateDesktop) (tr1 tr2 tr3 : List Event) (rc1 rc2 rc3 : ResultCode)
    (hmode : p.use_desktop_ = true) (hnone : p.alternate_desktop_ = none)
    (hout : (GetLogon env p w).out = some logon)
    (hd : d = ⟨(GetLogon env p w).world.next⟩)
    (htr1 : tr1 = (GetLogon env p w).world.trace ++ [Event.new_AlternateDesktop d])
    (hrc1 : rc1 = env.AlternateDesktop_Init tr1 d ALTERNATE_DESKTOP_ACCESS)
    (htr2 : tr2 = tr1 ++ [Event.AlternateDesktop_Init d ALTERNATE_DESKTOP_ACCESS rc1])
    (hrc2 : rc2 = env.Logon_GrantAccess tr2 logon (env.GetDesktopHandle tr2 d)
      SE_WINDOW_OBJECT GRANTED_ACCESS)
    (htr3 : tr3 = tr2 ++ [Event.Logon_GrantAccess logon (env.GetDesktopHandle tr2 d)
      SE_WINDOW_OBJECT GRANTED_ACCESS rc2])
    (hrc3 : rc3 = env.Logon_GrantAccess tr3 logon (env.GetWinstaHandle tr3 d)
      SE_WINDOW_OBJECT GRANTED_ACCESS) :
    GetDesktop env p w =
      if rc1 ≠ ResultCode.WINC_OK then
        ⟨rc1, none, (GetLogon env p w).policy,
          ⟨tr2 ++ [Event.delete_AlternateDesktop d], (GetLogon env p w).world.next + 1⟩⟩
      else if rc2 ≠ ResultCode.WINC_OK then
        ⟨rc2, none, (GetLogon env p w).policy,
          ⟨tr3 ++ [Event.delete_AlternateDesktop d], (GetLogon env p w).world.next + 1⟩⟩
      else if rc3 ≠ ResultCode.WINC_OK then
        ⟨rc3, none, (GetLogon env p w).policy,
          ⟨tr3 ++ [Event.Logon_GrantAccess logon (env.GetWinstaHandle tr3 d) SE_WINDOW_OBJECT
                GRANTED_ACCESS rc3, Event.delete_AlternateDesktop d],
            (GetLogon env p w).world.next + 1⟩⟩
      else
        ⟨ResultCode.WINC_OK, some (Desktop.ofAlternate d),
          { (GetLogon env p w).policy with alternate_desktop_ := some d },
          ⟨tr3 ++ [Event.Logon_GrantAccess logon (env.GetWinstaHandle tr3 d) SE_WINDOW_OBJECT
                GRANTED_ACCESS rc3],
            (GetLogon env p w).world.next + 1⟩⟩ := by
  have hg := (GetLogon_out_some env p w logon hout).1
  subst hrc3 htr3 hrc2 htr2 hrc1 htr1 hd
  unfold GetDesktop
  simp only [hmode, hnone, hg, hout, Bool.not_true, Bool.false_eq_true, if_false, ne_eq,
    not_true_eq_false, World.emit, World.alloc]
  split
  · simp only [List.append_assoc, List.cons_append, List.nil_append]
  · split
    · simp only [List.append_assoc, List.cons_append, List.nil_append]
    · split
      · simp only [List.append_assoc, List.cons_append, List.nil_append]
      · simp only [List.append_assoc, List.cons_append, List.nil_append]


/-- C11 (no partial desktop on failure, P6): in isolated mode with no
alternate desktop cached and the logon resolved, when `Init` of the new
desktop fails, or the `GrantAccess` on the desktop handle fails, or that one
succeeds and the `GrantAccess` on the window-station handle fails, `GetDesktop`
returns the code of that first failure, stores nothing through `out_desktop`,
makes no later call (the new desktop is destroyed right after the failing
call) and `alternate_desktop_` is still empty. -/
theorem GetDesktop_no_partial_desktop (env : Env) (p : Policy) (w : World) (logon : Logon)
    (d : AlternateDesktop) (tr1 tr2 tr3 : List Event) (rc1 rc2 rc3 : ResultCode)
    (hmode : p.use_desktop_ = true) (hnone : p.alternate_desktop_ = none)
    (hout : (GetLogon env p w).out = some logon)
    (hd : d = ⟨(GetLogon env p w).world.next⟩)
    (htr1 : tr1 = (GetLogon env p w).world.trace ++ [Event.new_AlternateDesktop d])
    (hrc1 : rc1 = env.AlternateDesktop_Init tr1 d ALTERNATE_DESKTOP_ACCESS)
    (htr2 : tr2 = tr1 ++ [Event.AlternateDesktop_Init d ALTERNATE_DESKTOP_ACCESS rc1])
    (hrc2 : rc2 = env.Logon_GrantAccess tr2 logon (env.GetDesktopHandle tr2 d)
      SE_WINDOW_OBJECT GRANTED_ACCESS)
    (htr3 : tr3 = tr2 ++ [Event.Logon_GrantAccess logon (env.GetDesktopHandle tr2 d)
      SE_WINDOW_OBJECT GRANTED_ACCESS rc2])
    (hrc3 : rc3 = env.Logon_GrantAccess tr3 logon (env.GetWinstaHandle tr3 d)
      SE_WINDOW_OBJECT GRANTED_ACCESS) :
    (rc1 ≠ ResultCode.WINC_OK →
      (GetDesktop env p w).rc = rc1 ∧ (GetDesktop env p w).out = none ∧
      (GetDesktop env p w).world.trace = tr2 ++ [Event.delete_AlternateDesktop d] ∧
      (GetDesktop env p w).policy.alternate_desktop_ = none) ∧
    (rc1 = ResultCode.WINC_OK → rc2 ≠ ResultCode.WINC_OK →
      (GetDesktop env p w).rc = rc2 ∧ (GetDesktop env p w).out = none ∧
      (GetDesktop env p w).world.trace = tr3 ++ [Event.delete_AlternateDesktop d] ∧
      (GetDesktop env p w).policy.alternate_desktop_ = none) ∧
    (rc1 = ResultCode.WINC_OK → rc2 = ResultCode.WINC_OK → rc3 ≠ ResultCode.WINC_OK →
      (GetDesktop env p w).rc = rc3 ∧ (GetDesktop env p w).out = none ∧
      (GetDesktop env p w).world.trace
        = tr3 ++ [Event.Logon_GrantAccess logon (env.GetWinstaHandle tr3 d) SE_WINDOW_OBJECT
              GRANTED_ACCESS rc3, Event.delete_AlternateDesktop d] ∧
      (GetDesktop env p w).policy.alternate_desktop_ = none) := by
  have hcases := GetDesktop_isolated env p w logon d tr1 tr2 tr3 rc1 rc2 rc3 hmode hnone hout hd
    htr1 hrc1 htr2 hrc2 htr3 hrc3
  have halt : (GetLogon env p w).policy.alternate_desktop_ = none := by
    rw [(GetLogon_out_some env p w logon hout).2]
    exact hnone
  refine ⟨fun h1 => ?_, fun h1 h2 => ?_, fun h1 h2 h3 => ?_⟩
  · rw [hcases, if_pos h1]
    exact ⟨rfl, rfl, rfl, halt⟩
  · rw [hcases, if_neg (not_not.mpr h1), if_pos h2]
    exact ⟨rfl, rfl, rfl, halt⟩
  · rw [hcases, if_neg (not_not.mpr h1), if_neg (not_not.mpr h2), if_pos h3]
    exact ⟨rfl, rfl, rfl, halt⟩

theorem GetDesktop_no_partial_desktop_witness :
    (GetDesktop envWinstaGrantFails policyIsolated world0).rc = ResultCode.WINC_ERROR 8 ∧
    (GetDesktop envWinstaGrantFails policyIsolated world0).out = none ∧
    (GetDesktop envWinstaGrantFails policyIsolated world0).world.trace
      = [Event.new_CurrentLogon ⟨0⟩,
         Event.Logon_Init ⟨0⟩ SECURITY_MANDATORY_LOW_RID ResultCode.WINC_OK,
         Event.new_AlternateDesktop ⟨1⟩,
         Event.AlternateDesktop_Init ⟨1⟩ ALTERNATE_DESKTOP_ACCESS ResultCode.WINC_OK,
         Event.Logon_GrantAccess ⟨0⟩ 2 SE_WINDOW_OBJECT GRANTED_ACCESS ResultCode.WINC_OK]
        ++ [Event.Logon_GrantAccess ⟨0⟩ 3 SE_WINDOW_OBJECT GRANTED_ACCESS (ResultCode.WINC_ERROR 8),
            Event.delete_AlternateDesktop ⟨1⟩] ∧
    (GetDesktop envWinstaGrantFails policyIsolated world0).policy.alternate_desktop_ = none :=
  (GetDesktop_no_partial_desktop envWinstaGrantFails policyIsolated world0 ⟨0⟩ ⟨1⟩ _ _ _ _ _ _
    rfl rfl rfl rfl rfl rfl rfl rfl rfl rfl).2.2 (by decide) (by decide) (by decide)

/-- C17 (isolated success path): in isolated mode with no alternate desktop
cached, a `GetDesktop` call in which every step succeeds performs, after the
logon resolution and in this order, the construction of one desktop, one
`Init` on it, and exactly two `GrantAccess` calls issued by the resolved
logon, the first on the desktop handle and the second on the window-station
handle of the new desktop, both with the mask
`GENERIC_READ | GENERIC_WRITE | GENERIC_EXECUTE`; then it caches that desktop
and returns it. -/
theorem GetDesktop_isolated_success (env : Env) (p : Policy) (w : World) (logon : Logon)
    (d : AlternateDesktop) (tr1 tr2 tr3 : List Event)
    (hmode : p.use_desktop_ = true) (hnone : p.alternate_desktop_ = none)
    (hout : (GetLogon env p w).out = some logon)
    (hd : d = ⟨(GetLogon env p w).world.next⟩)
    (htr1 : tr1 = (GetLogon env p w).world.trace ++ [Event.new_AlternateDesktop d])
    (htr2 : tr2 = tr1 ++ [Event.AlternateDesktop_Init d ALTERNATE_DESKTOP_ACCESS
      ResultCode.WINC_OK])
    (htr3 : tr3 = tr2 ++ [Event.Logon_GrantAccess logon (env.GetDesktopHandle tr2 d)
      SE_WINDOW_OBJECT GRANTED_ACCESS ResultCode.WINC_OK])
    (hok : (GetDesktop env p w).rc = ResultCode.WINC_OK) :
    env.AlternateDesktop_Init tr1 d ALTERNATE_DESKTOP_ACCESS = ResultCode.WINC_OK ∧
    env.Logon_GrantAccess tr2 logon (env.GetDesktopHandle tr2 d) SE_WINDOW_OBJECT GRANTED_ACCESS
      = ResultCode.WINC_OK ∧
    env.Logon_GrantAccess tr3 logon (env.GetWinstaHandle tr3 d) SE_WINDOW_OBJECT GRANTED_ACCESS
      = ResultCode.WINC_OK ∧
    (GetDesktop env p w).world.trace
      = (GetLogon env p w).world.trace ++
        [Event.new_AlternateDesktop d,
         Event.AlternateDesktop_Init d ALTERNATE_DESKTOP_ACCESS ResultCode.WINC_OK,
         Event.Logon_GrantAccess logon (env.GetDesktopHandle tr2 d) SE_WINDOW_OBJECT
           GRANTED_ACCESS ResultCode.WINC_OK,
         Event.Logon_GrantAccess logon (env.GetWinstaHandle tr3 d) SE_WINDOW_OBJECT
           GRANTED_ACCESS ResultCode.WINC_OK] ∧
    (∃ ext, (GetLogon env p w).world.trace = w.trace ++ ext ∧
      ∀ e ∈ ext, e.isGrantAccess = false) ∧
    (GetDesktop env p w).out = some (Desktop.ofAlternate d) ∧
    (GetDesktop env p w).policy.alternate_desktop_ = some d ∧
    (GetDesktop env p w).policy.logon_ = some logon ∧
    GRANTED_ACCESS = 0x80000000 ||| 0x40000000 ||| 0x20000000 := by
  have hcases := GetDesktop_isolated env p w logon d tr1 _ _ _ _ _ hmode hnone hout hd
    htr1 rfl rfl rfl rfl rfl
  have hpol := (GetLogon_out_some env p w logon hout).2
  have h1 : env.AlternateDesktop_Init tr1 d ALTERNATE_DESKTOP_ACCESS = ResultCode.WINC_OK := by
    by_contra hne
    rw [hcases, if_pos hne] at hok
    exact hne hok
  rw [h1, ← htr2] at hcases
  have h2 : env.Logon_GrantAccess tr2 logon (env.GetDesktopHandle tr2 d) SE_WINDOW_OBJECT
      GRANTED_ACCESS = ResultCode.WINC_OK := by
    by_contra hne
    rw [hcases, if_neg (by simp), if_pos hne] at hok
    exact hne hok
  rw [h2, ← htr3] at hcases
  have h3 : env.Logon_GrantAccess tr3 logon (env.GetWinstaHandle tr3 d) SE_WINDOW_OBJECT
      GRANTED_ACCESS = ResultCode.WINC_OK := by
    by_contra hne
    rw [hcases, if_neg (by simp), if_neg (by simp), if_pos hne] at hok
    exact hne hok
  rw [h3] at hcases
  simp only [ne_eq, not_true_eq_false, if_false] at hcases
  refine ⟨h1, h2, h3, ?_, ?_, ?_, ?_, ?_, rfl⟩
  · rw [hcases, htr3, htr2, htr1]
    simp only [List.append_assoc, List.cons_append, List.nil_append]
  · obtain ⟨ext, hext, -⟩ := GetLogon_trace env p w
    refine ⟨ext, hext, ?_⟩
    intro e he
    have hmem : e ∈ newEvents w (GetLogon env p w).world := by
      simpa [newEvents, hext] using he
    revert hmem
    unfold GetLogon
    cases p.logon_ with
    | some l => simp [newEvents]
    | none =>
      simp only
      split <;>
      · simp only [newEvents, World.emit, World.alloc, List.append_assoc, List.drop_left]
        intro hmem
        simp only [List.mem_append, List.mem_singleton, List.mem_cons, List.mem_nil_iff,
          or_false] at hmem
        rcases hmem with rfl | rfl | rfl <;> rfl
  · rw [hcases]
  · rw [hcases]
  · rw [hcases, hpol]

theorem GetDesktop_isolated_success_witness :
    (GetDesktop envOk policyIsolated world0).rc = ResultCode.WINC_OK ∧
    (GetDesktop envOk policyIsolated world0).world.trace
      = [Event.new_CurrentLogon ⟨0⟩,
         Event.Logon_Init ⟨0⟩ SECURITY_MANDATORY_LOW_RID ResultCode.WINC_OK] ++
        [Event.new_AlternateDesktop ⟨1⟩,
         Event.AlternateDesktop_Init ⟨1⟩ ALTERNATE_DESKTOP_ACCESS ResultCode.WINC_OK,
         Event.Logon_GrantAccess ⟨0⟩ 2 SE_WINDOW_OBJECT GRANTED_ACCESS ResultCode.WINC_OK,
         Event.Logon_GrantAccess ⟨0⟩ 3 SE_WINDOW_OBJECT GRANTED_ACCESS ResultCode.WINC_OK] ∧
    (GetDesktop envOk policyIsolated world0).out = some (Desktop.ofAlternate ⟨1⟩) :=
  ⟨by decide,
   (GetDesktop_isolated_success envOk policyIsolated world0 ⟨0⟩ ⟨1⟩ _ _ _
      rfl rfl rfl rfl rfl rfl rfl (by decide)).2.2.2.1,
   (GetDesktop_isolated_success envOk policyIsolated world0 ⟨0⟩ ⟨1⟩ _ _ _
      rfl rfl rfl rfl rfl rfl rfl (by decide)).2.2.2.2.2.1⟩


theorem SetLogon_next (logon : Option Logon) (p : Policy) (w : World) :
    (SetLogon logon p w).2.next = w.next := by
  unfold SetLogon
  cases p.logon_ <;> cases p.restricted_token_ <;> cases p.alternate_desktop_ <;> rfl

theorem GetDesktop_cached_alternate (env : Env) (p : Policy) (w : World) (d : AlternateDesktop)
    (hmode : p.use_desktop_ = true) (hd : p.alternate_desktop_ = some d) :
    GetDesktop env p w = ⟨ResultCode.WINC_OK, some (Desktop.ofAlternate d), p, w⟩ := by
  simp [GetDesktop, hmode, hd]

theorem GetDesktop_shared_ok (env : Env) (p : Policy) (w : World)
    (hmode : p.use_desktop_ = false) : (GetDesktop env p w).rc = ResultCode.WINC_OK := by
  unfold GetDesktop
  simp only [hmode, Bool.not_false, if_true]
  split <;> rfl

theorem GetDesktop_isolated_logon_fail (env : Env) (p : Policy) (w : World)
    (hmode : p.use_desktop_ = true) (hnone : p.alternate_desktop_ = none)
    (hrc : (GetLogon env p w).rc ≠ ResultCode.WINC_OK) :
    GetDesktop env p w
      = ⟨(GetLogon env p w).rc, none, (GetLogon env p w).policy, (GetLogon env p w).world⟩ := by
  unfold GetDesktop
  simp only [hmode, hnone, Bool.not_true, Bool.false_eq_true, if_false, hrc, ne_eq,
    not_false_eq_true, if_true]

/-- In the setting of `GetDesktop_isolated`, a successful call means that all
three steps succeeded. -/
theorem GetDesktop_isolated_ok (env : Env) (p : Policy) (w : World) (logon : Logon)
    (d : AlternateDesktop) (tr1 tr2 tr3 : List Event) (rc1 rc2 rc3 : ResultCode)
    (hmode : p.use_desktop_ = true) (hnone : p.alternate_desktop_ = none)
    (hout : (GetLogon env p w).out = some logon)
    (hd : d = ⟨(GetLogon env p w).world.next⟩)
    (htr1 : tr1 = (GetLogon env p w).world.trace ++ [Event.new_AlternateDesktop d])
    (hrc1 : rc1 = env.AlternateDesktop_Init tr1 d ALTERNATE_DESKTOP_ACCESS)
    (htr2 : tr2 = tr1 ++ [Event.AlternateDesktop_Init d ALTERNATE_DESKTOP_ACCESS rc1])
    (hrc2 : rc2 = env.Logon_GrantAccess tr2 logon (env.GetDesktopHandle tr2 d)
      SE_WINDOW_OBJECT GRANTED_ACCESS)
    (htr3 : tr3 = tr2 ++ [Event.Logon_GrantAccess logon (env.GetDesktopHandle tr2 d)
      SE_WINDOW_OBJECT GRANTED_ACCESS rc2])
    (hrc3 : rc3 = env.Logon_GrantAccess tr3 logon (env.GetWinstaHandle tr3 d)
      SE_WINDOW_OBJECT GRANTED_ACCESS)
    (hok : (GetDesktop env p w).rc = ResultCode.WINC_OK) :
    rc1 = ResultCode.WINC_OK ∧ rc2 = ResultCode.WINC_OK ∧ rc3 = ResultCode.WINC_OK ∧
    GetDesktop env p w
      = ⟨ResultCode.WINC_OK, some (Desktop.ofAlternate d),
          { (GetLogon env p w).policy with alternate_desktop_ := some d },
          ⟨tr3 ++ [Event.Logon_GrantAccess logon (env.GetWinstaHandle tr3 d) SE_WINDOW_OBJECT
                GRANTED_ACCESS rc3],
            (GetLogon env p w).world.next + 1⟩⟩ := by
  have hcases := GetDesktop_isolated env p w logon d tr1 tr2 tr3 rc1 rc2 rc3 hmode hnone hout hd
    htr1 hrc1 htr2 hrc2 htr3 hrc3
  have h1 : rc1 = ResultCode.WINC_OK := by
    by_contra hne
    rw [hcases, if_pos hne] at hok
    exact hne hok
  have h2 : rc2 = ResultCode.WINC_OK := by
    by_contra hne
    rw [hcases, if_neg (not_not.mpr h1), if_pos hne] at hok
    exact hne hok
  have h3 : rc3 = ResultCode.WINC_OK := by
    by_contra hne
    rw [hcases, if_neg (not_not.mpr h1), if_neg (not_not.mpr h2), if_pos hne] at hok
    exact hne hok
  refine ⟨h1, h2, h3, ?_⟩
  rw [hcases, if_neg (not_not.mpr h1), if_neg (not_not.mpr h2), if_neg (not_not.mpr h3)]

/-- C16 (re-creation of the isolated desktop, I2): from a newly created Policy
in isolated mode, after a successful `GetDesktop` and `SetLogon(newId)`, the
next `GetDesktop` does not return the first desktop: that one was destroyed by
`SetLogon`, and the call constructs a new desktop and calls `Init` on it; when
the call succeeds it has made one `Init` and two `GrantAccess` calls issued by
`newId` and returns the new desktop, which is not the first one.  Without the
`SetLogon` in between, the second `GetDesktop` returns the cached desktop and
appends no event. -/
theorem GetDesktop_after_SetLogon_recreates (env : Env) (basic ui : DWORD) (w0 : World)
    (newId : Logon) (r1 r2 : Ret Desktop) (s2 : Policy × World) (d2 : AlternateDesktop)
    (tr1 tr2 tr3 : List Event)
    (hr1 : r1 = GetDesktop env (Policy.create true basic ui) w0)
    (hok1 : r1.rc = ResultCode.WINC_OK)
    (hs2 : s2 = SetLogon (some newId) r1.policy r1.world)
    (hr2 : r2 = GetDesktop env s2.1 s2.2)
    (hd2 : d2 = ⟨s2.2.next⟩)
    (htr1 : tr1 = s2.2.trace ++ [Event.new_AlternateDesktop d2])
    (htr2 : tr2 = tr1 ++ [Event.AlternateDesktop_Init d2 ALTERNATE_DESKTOP_ACCESS
      (env.AlternateDesktop_Init tr1 d2 ALTERNATE_DESKTOP_ACCESS)])
    (htr3 : tr3 = tr2 ++ [Event.Logon_GrantAccess newId (env.GetDesktopHandle tr2 d2)
      SE_WINDOW_OBJECT GRANTED_ACCESS
      (env.Logon_GrantAccess tr2 newId (env.GetDesktopHandle tr2 d2) SE_WINDOW_OBJECT
        GRANTED_ACCESS)]) :
    (∃ d1, r1.out = some (Desktop.ofAlternate d1) ∧ r1.policy.alternate_desktop_ = some d1 ∧
      d1 ≠ d2 ∧ Event.delete_AlternateDesktop d1 ∈ newEvents r1.world s2.2) ∧
    s2.1.alternate_desktop_ = none ∧ s2.1.logon_ = some newId ∧
    (∃ rest, r2.world.trace = tr2 ++ rest) ∧
    (r2.rc = ResultCode.WINC_OK →
      r2.world.trace
        = s2.2.trace ++
          [Event.new_AlternateDesktop d2,
           Event.AlternateDesktop_Init d2 ALTERNATE_DESKTOP_ACCESS ResultCode.WINC_OK,
           Event.Logon_GrantAccess newId (env.GetDesktopHandle tr2 d2) SE_WINDOW_OBJECT
             GRANTED_ACCESS ResultCode.WINC_OK,
           Event.Logon_GrantAccess newId (env.GetWinstaHandle tr3 d2) SE_WINDOW_OBJECT
             GRANTED_ACCESS ResultCode.WINC_OK] ∧
      r2.out = some (Desktop.ofAlternate d2) ∧ r2.out ≠ r1.out ∧
      r2.policy.alternate_desktop_ = some d2) ∧
    GetDesktop env r1.policy r1.world = ⟨ResultCode.WINC_OK, r1.out, r1.policy, r1.world⟩ := by
  -- the first call
  have hg1 : (GetLogon env (Policy.create true basic ui) w0).rc = ResultCode.WINC_OK := by
    by_contra hne
    rw [hr1, GetDesktop_isolated_logon_fail env _ w0 rfl rfl hne] at hok1
    exact hne hok1
  obtain ⟨l1, hout1, hpol1⟩ := GetLogon_ok env _ w0 hg1
  obtain ⟨-, -, -, hfirst⟩ := GetDesktop_isolated_ok env (Policy.create true basic ui) w0 l1
    _ _ _ _ _ _ _ rfl rfl hout1 rfl rfl rfl rfl rfl rfl rfl (by rw [← hr1]; exact hok1)
  rw [← hr1] at hfirst
  have hmode1 : r1.policy.use_desktop_ = true := by rw [hfirst, hpol1]; rfl
  have halt1 : r1.policy.alternate_desktop_
      = some ⟨(GetLogon env (Policy.create true basic ui) w0).world.next⟩ := by rw [hfirst]
  have hnext1 : r1.world.next
      = (GetLogon env (Policy.create true basic ui) w0).world.next + 1 := by rw [hfirst]
  have hout1 : r1.out
      = some (Desktop.ofAlternate ⟨(GetLogon env (Policy.create true basic ui) w0).world.next⟩) := by
    rw [hfirst]
  -- the state after `SetLogon`
  have hnext2 : s2.2.next = r1.world.next := by rw [hs2]; exact SetLogon_next _ _ _
  have hmode2 : s2.1.use_desktop_ = true := by rw [hs2]; exact hmode1
  have halt2 : s2.1.alternate_desktop_ = none := by rw [hs2]; rfl
  have hlogon2 : s2.1.logon_ = some newId := by rw [hs2]; rfl
  have hg2 := GetLogon_cached env s2.1 s2.2 newId hlogon2
  have hne12 : (⟨(GetLogon env (Policy.create true basic ui) w0).world.next⟩ : AlternateDesktop)
      ≠ d2 := by
    rw [hd2, hnext2, hnext1]
    intro h
    have := congrArg AlternateDesktop.addr h
    simp at this
  have hcases2 := GetDesktop_isolated env s2.1 s2.2 newId d2 tr1 tr2 tr3 _ _ _ hmode2 halt2
    (by rw [hg2]) (by rw [hg2]; exact hd2) (by rw [hg2]; exact htr1) rfl htr2 rfl htr3 rfl
  rw [← hr2, hg2] at hcases2
  refine ⟨⟨_, hout1, halt1, hne12, ?_⟩, halt2, hlogon2, ?_, ?_, ?_⟩
  · rw [hs2]
    unfold SetLogon
    simp only [halt1, release_alternate_desktop, World.emit, newEvents]
    cases r1.policy.logon_ <;> cases r1.policy.restricted_token_ <;>
      simp [release_logon, release_restricted_token, World.emit]
  · rw [hcases2]
    split
    · exact ⟨_, rfl⟩
    · split
      · exact ⟨_, by rw [htr3]; simp only [List.append_assoc]; rfl⟩
      · split
        · exact ⟨_, by rw [htr3]; simp only [List.append_assoc]; rfl⟩
        · exact ⟨_, by rw [htr3]; simp only [List.append_assoc]; rfl⟩
  · intro hok2
    obtain ⟨h1, h2, h3, heq⟩ := GetDesktop_isolated_ok env s2.1 s2.2 newId d2 tr1 tr2 tr3 _ _ _
      hmode2 halt2 (by rw [hg2]) (by rw [hg2]; exact hd2) (by rw [hg2]; exact htr1) rfl htr2
      rfl htr3 rfl (by rw [← hr2]; exact hok2)
    rw [← hr2] at heq
    rw [heq, h3]
    refine ⟨?_, rfl, ?_, rfl⟩
    · simp only
      rw [htr3, h2, htr2, h1, htr1]
      simp only [List.append_assoc, List.cons_append, List.nil_append]
    · simp only
      rw [hout1]
      intro h
      simp only [Option.some.injEq, Desktop.ofAlternate.injEq] at h
      exact hne12 h.symm
  · rw [hout1]
    exact GetDesktop_cached_alternate env r1.policy r1.world _ hmode1 halt1

theorem GetDesktop_after_SetLogon_recreates_witness :
    firstDesktop.rc = ResultCode.WINC_OK ∧
    firstDesktop.out = some (Desktop.ofAlternate ⟨1⟩) ∧
    (GetDesktop envOk afterNewId.1 afterNewId.2).rc = ResultCode.WINC_OK ∧
    ((GetDesktop envOk afterNewId.1 afterNewId.2).rc = ResultCode.WINC_OK →
      (GetDesktop envOk afterNewId.1 afterNewId.2).world.trace
        = afterNewId.2.trace ++
          [Event.new_AlternateDesktop ⟨2⟩,
           Event.AlternateDesktop_Init ⟨2⟩ ALTERNATE_DESKTOP_ACCESS ResultCode.WINC_OK,
           Event.Logon_GrantAccess ⟨40⟩ 4 SE_WINDOW_OBJECT GRANTED_ACCESS ResultCode.WINC_OK,
           Event.Logon_GrantAccess ⟨40⟩ 5 SE_WINDOW_OBJECT GRANTED_ACCESS ResultCode.WINC_OK] ∧
      (GetDesktop envOk afterNewId.1 afterNewId.2).out = some (Desktop.ofAlternate ⟨2⟩) ∧
      (GetDesktop envOk afterNewId.1 afterNewId.2).out ≠ firstDesktop.out ∧
      (GetDesktop envOk afterNewId.1 afterNewId.2).policy.alternate_desktop_ = some ⟨2⟩) :=
  ⟨by decide, by decide, by decide,
   (GetDesktop_after_SetLogon_recreates envOk 0 0 world0 ⟨40⟩ firstDesktop
      (GetDesktop envOk afterNewId.1 afterNewId.2) afterNewId ⟨2⟩ _ _ _
      rfl (by decide) rfl rfl rfl rfl rfl rfl).2.2.2.2.1⟩


/-- C19 (the logon survives a later failure): when no logon was cached and
`GetLogon` created one (the object at the next free address), a
`GetRestrictedToken` call that then fails (at
`FilterToken`) or a `GetDesktop` call that then fails (at `Init` of the
alternate desktop or at a `GrantAccess`) leaves the new logon in `logon_`; a
retry of the same call gets that logon from the cache and makes no `Init` call
on a logon: it goes straight to `FilterToken`, respectively to the
construction of a new alternate desktop. -/
theorem logon_survives_later_failure (env : Env) (p : Policy) (w : World) (l : Logon)
    (hnone : p.logon_ = none) (hg : (GetLogon env p w).out = some l) :
    l = ⟨w.next⟩ ∧
    ((GetRestrictedToken env p w).rc ≠ ResultCode.WINC_OK →
      (GetRestrictedToken env p w).policy.logon_ = some l ∧
      GetLogon env (GetRestrictedToken env p w).policy (GetRestrictedToken env p w).world
        = ⟨ResultCode.WINC_OK, some l, (GetRestrictedToken env p w).policy,
            (GetRestrictedToken env p w).world⟩ ∧
      (GetRestrictedToken env (GetRestrictedToken env p w).policy
          (GetRestrictedToken env p w).world).world.trace
        = (GetRestrictedToken env p w).world.trace ++
          [filterEvent env (GetRestrictedToken env p w).world.trace l
            (GetRestrictedToken env p w).policy.restricted_sids_] ∧
      (newEvents (GetRestrictedToken env p w).world
          (GetRestrictedToken env (GetRestrictedToken env p w).policy
            (GetRestrictedToken env p w).world).world).countP Event.isLogonInit = 0) ∧
    ((GetDesktop env p w).rc ≠ ResultCode.WINC_OK →
      (GetDesktop env p w).policy.logon_ = some l ∧
      GetLogon env (GetDesktop env p w).policy (GetDesktop env p w).world
        = ⟨ResultCode.WINC_OK, some l, (GetDesktop env p w).policy,
            (GetDesktop env p w).world⟩ ∧
      (∃ rest,
        (GetDesktop env (GetDesktop env p w).policy (GetDesktop env p w).world).world.trace
          = (GetDesktop env p w).world.trace ++
            Event.new_AlternateDesktop ⟨(GetDesktop env p w).world.next⟩ :: rest) ∧
      (newEvents (GetDesktop env p w).world
          (GetDesktop env (GetDesktop env p w).policy
            (GetDesktop env p w).world).world).countP Event.isLogonInit = 0) := by
  obtain ⟨hgrc, hgpol⟩ := GetLogon_out_some env p w l hg
  refine ⟨?_, ?_, ?_⟩
  · have hcopy := hg
    unfold GetLogon at hcopy
    simp only [hnone] at hcopy
    split at hcopy
    · cases hcopy
    · exact (Option.some.inj hcopy).symm
  · intro hfail
    have hc : p.restricted_token_ = none := by
      by_contra hne
      obtain ⟨token, ht⟩ := Option.ne_none_iff_exists'.mp hne
      rw [GetRestrictedToken_cached env p w token ht] at hfail
      exact hfail rfl
    have hpol : (GetRestrictedToken env p w).policy = { p with logon_ := some l } := by
      rcases GetRestrictedToken_uncached env p w hc with ⟨hrc, -⟩ | ⟨l2, -, hout, -, hcase⟩
      · exact absurd hgrc hrc
      · rw [hg] at hout
        cases hout
        rcases hcase with ⟨-, heq⟩ | ⟨-, heq⟩
        · rw [heq]
        · rw [heq] at hfail
          exact absurd rfl hfail
    have hl : (GetRestrictedToken env p w).policy.logon_ = some l := by rw [hpol]
    have ht : (GetRestrictedToken env p w).policy.restricted_token_ = none := by
      rw [hpol]; exact hc
    obtain ⟨htr, -, -⟩ := GetRestrictedToken_fresh env _ (GetRestrictedToken env p w).world l hl ht
    refine ⟨hl, GetLogon_cached env _ _ l hl, htr, ?_⟩
    simp [newEvents, htr, filterEvent, Event.isLogonInit]
  · intro hfail
    have hmode : p.use_desktop_ = true := by
      by_contra hne
      exact hfail (GetDesktop_shared_ok env p w (by simpa using hne))
    have hpol : (GetDesktop env p w).policy = { p with logon_ := some l } ∧
        p.alternate_desktop_ = none := by
      rcases GetDesktop_policy env p w with ⟨hok, -⟩ | ⟨-, halt, hp⟩
      · exact absurd hok hfail
      · exact ⟨hp.trans hgpol, halt⟩
    have hl : (GetDesktop env p w).policy.logon_ = some l := by rw [hpol.1]
    have hm2 : (GetDesktop env p w).policy.use_desktop_ = true := by rw [hpol.1]; exact hmode
    have ha2 : (GetDesktop env p w).policy.alternate_desktop_ = none := by
      rw [hpol.1]; exact hpol.2
    have hg2 := GetLogon_cached env (GetDesktop env p w).policy (GetDesktop env p w).world l hl
    have hcases := GetDesktop_isolated env (GetDesktop env p w).policy (GetDesktop env p w).world
      l ⟨(GetDesktop env p w).world.next⟩
      ((GetDesktop env p w).world.trace
        ++ [Event.new_AlternateDesktop ⟨(GetDesktop env p w).world.next⟩])
      _ _ _ _ _ hm2 ha2 (by rw [hg2]) (by rw [hg2]) (by rw [hg2]) rfl rfl rfl rfl rfl
    rw [hg2] at hcases
    simp only at hcases
    refine ⟨hl, hg2, ?_, ?_⟩
    · rw [hcases]
      split
      · exact ⟨_, by simp only [List.append_assoc, List.cons_append, List.nil_append]; rfl⟩
      · split
        · exact ⟨_, by simp only [List.append_assoc, List.cons_append, List.nil_append]; rfl⟩
        · split
          · exact ⟨_, by simp only [List.append_assoc, List.cons_append, List.nil_append]; rfl⟩
          · exact ⟨_, by simp only [List.append_assoc, List.cons_append, List.nil_append]; rfl⟩
    · rw [hcases]
      split
      · simp [newEvents, Event.isLogonInit]
      · split
        · simp [newEvents, Event.isLogonInit]
        · split
          · simp [newEvents, Event.isLogonInit]
          · simp [newEvents, Event.isLogonInit]

theorem logon_survives_later_failure_witness :
    policy0.logon_ = none ∧ (GetLogon envFilterFails policy0 world0).out = some ⟨0⟩ ∧
    (GetRestrictedToken envFilterFails policy0 world0).rc ≠ ResultCode.WINC_OK ∧
    (GetRestrictedToken envFilterFails policy0 world0).policy.logon_ = some ⟨0⟩ ∧
    (newEvents (GetRestrictedToken envFilterFails policy0 world0).world
        (GetRestrictedToken envFilterFails
          (GetRestrictedToken envFilterFails policy0 world0).policy
          (GetRestrictedToken envFilterFails policy0 world0).world).world).countP
      Event.isLogonInit = 0 ∧
    (GetDesktop envGrantFails policyIsolated world0).rc ≠ ResultCode.WINC_OK ∧
    (GetDesktop envGrantFails policyIsolated world0).policy.logon_ = some ⟨0⟩ ∧
    (newEvents (GetDesktop envGrantFails policyIsolated world0).world
        (GetDesktop envGrantFails (GetDesktop envGrantFails policyIsolated world0).policy
          (GetDesktop envGrantFails policyIsolated world0).world).world).countP
      Event.isLogonInit = 0 :=
  ⟨rfl, by decide, by decide,
   ((logon_survives_later_failure envFilterFails policy0 world0 ⟨0⟩ rfl (by decide)).2.1
      (by decide)).1,
   ((logon_survives_later_failure envFilterFails policy0 world0 ⟨0⟩ rfl (by decide)).2.1
      (by decide)).2.2.2,
   by decide,
   ((logon_survives_later_failure envGrantFails policyIsolated world0 ⟨0⟩ rfl (by decide)).2.2
      (by decide)).1,
   ((logon_survives_later_failure envGrantFails policyIsolated world0 ⟨0⟩ rfl (by decide)).2.2
      (by decide)).2.2.2⟩


/-- The ways `MakeJobObject` ends: `rc1`, `rc2`, `rc3` are the answers to
`Init`, `SetBasicLimit` and `SetUILimit` on the new job `job`, `tr1`, `tr2`,
`tr3` the histories at these calls. -/
theorem MakeJobObject_cases (env : Env) (p : Policy) (w : World) (job : JobObject)
    (limit1 : JOBOBJECT_EXTENDED_LIMIT_INFORMATION) (limit2 : JOBOBJECT_BASIC_UI_RESTRICTIONS)
    (tr1 tr2 tr3 : List Event) (rc1 rc2 rc3 : ResultCode)
    (hjob : job = ⟨w.next⟩)
    (hlimit1 : limit1 =
      { BasicLimitInformation :=
          { PerProcessUserTimeLimit := 0, PerJobUserTimeLimit := 0,
            LimitFlags := p.job_basic_limit_, MinimumWorkingSetSize := 0,
            MaximumWorkingSetSize := 0, ActiveProcessLimit := 0, Affinity := 0,
            PriorityClass := 0, SchedulingClass := 0 },
        IoInfo :=
          { ReadOperationCount := 0, WriteOperationCount := 0, OtherOperationCount := 0,
            ReadTransferCount := 0, WriteTransferCount := 0, OtherTransferCount := 0 },
        ProcessMemoryLimit := 0, JobMemoryLimit := 0, PeakProcessMemoryUsed := 0,
        PeakJobMemoryUsed := 0 })
    (hlimit2 : limit2 = { UIRestrictionsClass := p.job_ui_limit_ })
    (htr1 : tr1 = w.trace ++ [Event.new_JobObject job])
    (hrc1 : rc1 = env.JobObject_Init tr1 job)
    (htr2 : tr2 = tr1 ++ [Event.JobObject_Init job rc1])
    (hrc2 : rc2 = env.JobObject_SetBasicLimit tr2 job limit1)
    (htr3 : tr3 = tr2 ++ [Event.JobObject_SetBasicLimit job limit1 rc2])
    (hrc3 : rc3 = env.JobObject_SetUILimit tr3 job limit2) :
    MakeJobObject env p w =
      if rc1 ≠ ResultCode.WINC_OK then ⟨rc1, none, p, ⟨tr2, w.next + 1⟩⟩
      else if rc2 ≠ ResultCode.WINC_OK then ⟨rc2, none, p, ⟨tr3, w.next + 1⟩⟩
      else if rc3 ≠ ResultCode.WINC_OK then
        ⟨rc3, none, p, ⟨tr3 ++ [Event.JobObject_SetUILimit job limit2 rc3], w.next + 1⟩⟩
      else
        ⟨ResultCode.WINC_OK, some job, p,
          ⟨tr3 ++ [Event.JobObject_SetUILimit job limit2 rc3], w.next + 1⟩⟩ := by
  subst hrc3 htr3 hrc2 htr2 hrc1 htr1 hlimit2 hlimit1 hjob
  unfold MakeJobObject
  simp only [World.emit, World.alloc, JOBOBJECT_EXTENDED_LIMIT_INFORMATION.zero,
    JOBOBJECT_BASIC_UI_RESTRICTIONS.zero]

/-- The same case analysis with the histories and answers left abstract. -/
theorem MakeJobObject_cases_exists (env : Env) (p : Policy) (w : World) :
    ∃ (job : JobObject) (limit1 : JOBOBJECT_EXTENDED_LIMIT_INFORMATION)
      (limit2 : JOBOBJECT_BASIC_UI_RESTRICTIONS) (tr2 tr3 : List Event)
      (rc1 rc2 rc3 : ResultCode),
      job = ⟨w.next⟩ ∧
      tr2 = w.trace ++ [Event.new_JobObject job, Event.JobObject_Init job rc1] ∧
      tr3 = tr2 ++ [Event.JobObject_SetBasicLimit job limit1 rc2] ∧
      MakeJobObject env p w =
        if rc1 ≠ ResultCode.WINC_OK then ⟨rc1, none, p, ⟨tr2, w.next + 1⟩⟩
        else if rc2 ≠ ResultCode.WINC_OK then ⟨rc2, none, p, ⟨tr3, w.next + 1⟩⟩
        else if rc3 ≠ ResultCode.WINC_OK then
          ⟨rc3, none, p, ⟨tr3 ++ [Event.JobObject_SetUILimit job limit2 rc3], w.next + 1⟩⟩
        else
          ⟨ResultCode.WINC_OK, some job, p,
            ⟨tr3 ++ [Event.JobObject_SetUILimit job limit2 rc3], w.next + 1⟩⟩ :=
  ⟨_, _, _, _, _, _, _, _, rfl, by simp, rfl,
    MakeJobObject_cases env p w _ _ _ _ _ _ _ _ _ rfl rfl rfl rfl rfl rfl rfl rfl rfl⟩

/-- C12, what the code does: when `Init`, `SetBasicLimit` or `SetUILimit`
fails, `MakeJobObject` returns the code of that step (the last event of the
call) and stores nothing through `out_job`, but the job object it constructed
is never destroyed: the call appends its construction and no
`delete_JobObject` event, and the Policy keeps no owner for it. -/
theorem MakeJobObject_failure_keeps_job_allocated (env : Env) (p : Policy) (w : World)
    (hfail : (MakeJobObject env p w).rc ≠ ResultCode.WINC_OK) :
    (MakeJobObject env p w).out = none ∧
    (MakeJobObject env p w).policy = p ∧
    (∃ rest, newEvents w (MakeJobObject env p w).world
      = Event.new_JobObject ⟨w.next⟩ :: rest) ∧
    (∃ pre, newEvents w (MakeJobObject env p w).world
        = pre ++ [Event.JobObject_Init ⟨w.next⟩ (MakeJobObject env p w).rc] ∨
      (∃ limit, newEvents w (MakeJobObject env p w).world
        = pre ++ [Event.JobObject_SetBasicLimit ⟨w.next⟩ limit (MakeJobObject env p w).rc]) ∨
      (∃ limit, newEvents w (MakeJobObject env p w).world
        = pre ++ [Event.JobObject_SetUILimit ⟨w.next⟩ limit (MakeJobObject env p w).rc])) ∧
    (∀ job, Event.delete_JobObject job ∉ newEvents w (MakeJobObject env p w).world) := by
  obtain ⟨job, limit1, limit2, tr2, tr3, rc1, rc2, rc3, hjob, htr2, htr3, hc⟩ :=
    MakeJobObject_cases_exists env p w
  subst hjob htr3 htr2
  by_cases h1 : rc1 = ResultCode.WINC_OK
  · by_cases h2 : rc2 = ResultCode.WINC_OK
    · by_cases h3 : rc3 = ResultCode.WINC_OK
      · rw [hc, if_neg (not_not.mpr h1), if_neg (not_not.mpr h2), if_neg (not_not.mpr h3)]
          at hfail
        exact absurd rfl hfail
      · rw [hc, if_neg (not_not.mpr h1), if_neg (not_not.mpr h2), if_pos h3]
        refine ⟨rfl, rfl, ⟨_, by simp only [newEvents, List.append_assoc, List.drop_left]; rfl⟩,
          ⟨[Event.new_JobObject ⟨w.next⟩, Event.JobObject_Init ⟨w.next⟩ rc1,
              Event.JobObject_SetBasicLimit ⟨w.next⟩ limit1 rc2],
            Or.inr (Or.inr ⟨limit2, by simp [newEvents]⟩)⟩, ?_⟩
        intro j
        simp [newEvents]
    · rw [hc, if_neg (not_not.mpr h1), if_pos h2]
      refine ⟨rfl, rfl, ⟨_, by simp only [newEvents, List.append_assoc, List.drop_left]; rfl⟩,
        ⟨[Event.new_JobObject ⟨w.next⟩, Event.JobObject_Init ⟨w.next⟩ rc1],
          Or.inr (Or.inl ⟨limit1, by simp [newEvents]⟩)⟩, ?_⟩
      intro j
      simp [newEvents]
  · rw [hc, if_pos h1]
    refine ⟨rfl, rfl, ⟨_, by simp only [newEvents, List.drop_left]; rfl⟩,
      ⟨[Event.new_JobObject ⟨w.next⟩], Or.inl (by simp [newEvents])⟩, ?_⟩
    intro j
    simp [newEvents]

theorem MakeJobObject_failure_keeps_job_allocated_witness :
    (MakeJobObject envJobInitFails policy0 world0).rc = ResultCode.WINC_ERROR 6 ∧
    (MakeJobObject envJobInitFails policy0 world0).world.trace
      = [Event.new_JobObject ⟨0⟩, Event.JobObject_Init ⟨0⟩ (ResultCode.WINC_ERROR 6)] ∧
    (MakeJobObject envJobInitFails policy0 world0).out = none ∧
    (∀ job, Event.delete_JobObject job
      ∉ newEvents world0 (MakeJobObject envJobInitFails policy0 world0).world) ∧
    (GetDesktop envDesktopFails policyIsolated world0).world.trace
      = [Event.new_CurrentLogon ⟨0⟩,
         Event.Logon_Init ⟨0⟩ SECURITY_MANDATORY_LOW_RID ResultCode.WINC_OK,
         Event.new_AlternateDesktop ⟨1⟩,
         Event.AlternateDesktop_Init ⟨1⟩ ALTERNATE_DESKTOP_ACCESS (ResultCode.WINC_ERROR 4),
         Event.delete_AlternateDesktop ⟨1⟩] :=
  ⟨by decide, by decide,
   (MakeJobObject_failure_keeps_job_allocated envJobInitFails policy0 world0 (by decide)).1,
   (MakeJobObject_failure_keeps_job_allocated envJobInitFails policy0 world0
      (by decide)).2.2.2.2,
   by decide⟩


/-- A successful `MakeJobObject`: the three steps succeeded, on the job at the
next free address, with the limits built from the configuration. -/
theorem MakeJobObject_ok (env : Env) (p : Policy) (w : World)
    (limit1 : JOBOBJECT_EXTENDED_LIMIT_INFORMATION) (limit2 : JOBOBJECT_BASIC_UI_RESTRICTIONS)
    (hlimit1 : limit1 =
      { BasicLimitInformation :=
          { PerProcessUserTimeLimit := 0, PerJobUserTimeLimit := 0,
            LimitFlags := p.job_basic_limit_, MinimumWorkingSetSize := 0,
            MaximumWorkingSetSize := 0, ActiveProcessLimit := 0, Affinity := 0,
            PriorityClass := 0, SchedulingClass := 0 },
        IoInfo :=
          { ReadOperationCount := 0, WriteOperationCount := 0, OtherOperationCount := 0,
            ReadTransferCount := 0, WriteTransferCount := 0, OtherTransferCount := 0 },
        ProcessMemoryLimit := 0, JobMemoryLimit := 0, PeakProcessMemoryUsed := 0,
        PeakJobMemoryUsed := 0 })
    (hlimit2 : limit2 = { UIRestrictionsClass := p.job_ui_limit_ })
    (hok : (MakeJobObject env p w).rc = ResultCode.WINC_OK) :
    MakeJobObject env p w
      = ⟨ResultCode.WINC_OK, some ⟨w.next⟩, p,
          ⟨w.trace ++
            [Event.new_JobObject ⟨w.next⟩,
             Event.JobObject_Init ⟨w.next⟩ ResultCode.WINC_OK,
             Event.JobObject_SetBasicLimit ⟨w.next⟩ limit1 ResultCode.WINC_OK,
             Event.JobObject_SetUILimit ⟨w.next⟩ limit2 ResultCode.WINC_OK],
           w.next + 1⟩⟩ := by
  have hcases := MakeJobObject_cases env p w ⟨w.next⟩ limit1 limit2 _ _ _ _ _ _ rfl hlimit1
    hlimit2 rfl rfl rfl rfl rfl rfl
  generalize env.JobObject_Init (w.trace ++ [Event.new_JobObject ⟨w.next⟩]) ⟨w.next⟩ = rc1
    at hcases
  generalize env.JobObject_SetBasicLimit
    (w.trace ++ [Event.new_JobObject ⟨w.next⟩] ++ [Event.JobObject_Init ⟨w.next⟩ rc1])
    ⟨w.next⟩ limit1 = rc2 at hcases
  generalize env.JobObject_SetUILimit
    (w.trace ++ [Event.new_JobObject ⟨w.next⟩] ++ [Event.JobObject_Init ⟨w.next⟩ rc1]
      ++ [Event.JobObject_SetBasicLimit ⟨w.next⟩ limit1 rc2])
    ⟨w.next⟩ limit2 = rc3 at hcases
  have h1 : rc1 = ResultCode.WINC_OK := by
    by_contra hne
    rw [hcases, if_pos hne] at hok
    exact hne hok
  have h2 : rc2 = ResultCode.WINC_OK := by
    by_contra hne
    rw [hcases, if_neg (not_not.mpr h1), if_pos hne] at hok
    exact hne hok
  have h3 : rc3 = ResultCode.WINC_OK := by
    by_contra hne
    rw [hcases, if_neg (not_not.mpr h1), if_neg (not_not.mpr h2), if_pos hne] at hok
    exact hne hok
  rw [hcases, if_neg (not_not.mpr h1), if_neg (not_not.mpr h2), if_neg (not_not.mpr h3), h1, h2,
    h3]
  simp only [List.append_assoc, List.cons_append, List.nil_append]

/-- C13 (freshness and configuration, I4 and P5): every `MakeJobObject` call
constructs a new job object and leaves the Policy as it is; of the Policy it
reads the two configured limits only.  When all steps succeed, the job
returned is the one just constructed, after `Init`, then `SetBasicLimit` with
`LimitFlags` equal to `job_basic_limit_` and every other field zero, then
`SetUILimit` with `UIRestrictionsClass` equal to `job_ui_limit_`.  A second
successful call right after returns another job, configured with the same
limits. -/
theorem MakeJobObject_fresh_and_configured (env : Env) (p : Policy) (w : World)
    (limit1 : JOBOBJECT_EXTENDED_LIMIT_INFORMATION) (limit2 : JOBOBJECT_BASIC_UI_RESTRICTIONS)
    (hlimit1 : limit1 =
      { BasicLimitInformation :=
          { PerProcessUserTimeLimit := 0, PerJobUserTimeLimit := 0,
            LimitFlags := p.job_basic_limit_, MinimumWorkingSetSize := 0,
            MaximumWorkingSetSize := 0, ActiveProcessLimit := 0, Affinity := 0,
            PriorityClass := 0, SchedulingClass := 0 },
        IoInfo :=
          { ReadOperationCount := 0, WriteOperationCount := 0, OtherOperationCount := 0,
            ReadTransferCount := 0, WriteTransferCount := 0, OtherTransferCount := 0 },
        ProcessMemoryLimit := 0, JobMemoryLimit := 0, PeakProcessMemoryUsed := 0,
        PeakJobMemoryUsed := 0 })
    (hlimit2 : limit2 = { UIRestrictionsClass := p.job_ui_limit_ }) :
    (MakeJobObject env p w).policy = p ∧
    (∃ rest, newEvents w (MakeJobObject env p w).world
      = Event.new_JobObject ⟨w.next⟩ :: rest) ∧
    (∀ q : Policy, q.job_basic_limit_ = p.job_basic_limit_ →
      q.job_ui_limit_ = p.job_ui_limit_ →
      (MakeJobObject env q w).rc = (MakeJobObject env p w).rc ∧
      (MakeJobObject env q w).out = (MakeJobObject env p w).out ∧
      (MakeJobObject env q w).world = (MakeJobObject env p w).world) ∧
    ((MakeJobObject env p w).rc = ResultCode.WINC_OK →
      (MakeJobObject env p w).out = some ⟨w.next⟩ ∧
      newEvents w (MakeJobObject env p w).world
        = [Event.new_JobObject ⟨w.next⟩,
           Event.JobObject_Init ⟨w.next⟩ ResultCode.WINC_OK,
           Event.JobObject_SetBasicLimit ⟨w.next⟩ limit1 ResultCode.WINC_OK,
           Event.JobObject_SetUILimit ⟨w.next⟩ limit2 ResultCode.WINC_OK] ∧
      ((MakeJobObject env (MakeJobObject env p w).policy (MakeJobObject env p w).world).rc
          = ResultCode.WINC_OK →
        (MakeJobObject env (MakeJobObject env p w).policy (MakeJobObject env p w).world).out
          = some ⟨w.next + 1⟩ ∧
        (MakeJobObject env (MakeJobObject env p w).policy (MakeJobObject env p w).world).out
          ≠ (MakeJobObject env p w).out ∧
        newEvents (MakeJobObject env p w).world
            (MakeJobObject env (MakeJobObject env p w).policy (MakeJobObject env p w).world).world
          = [Event.new_JobObject ⟨w.next + 1⟩,
             Event.JobObject_Init ⟨w.next + 1⟩ ResultCode.WINC_OK,
             Event.JobObject_SetBasicLimit ⟨w.next + 1⟩ limit1 ResultCode.WINC_OK,
             Event.JobObject_SetUILimit ⟨w.next + 1⟩ limit2 ResultCode.WINC_OK])) := by
  refine ⟨MakeJobObject_policy env p w, ?_, ?_, ?_⟩
  · obtain ⟨job, l1, l2, tr2, tr3, rc1, rc2, rc3, hjob, htr2, htr3, hc⟩ :=
      MakeJobObject_cases_exists env p w
    subst hjob htr3 htr2
    rw [hc]
    split
    · exact ⟨_, by simp only [newEvents, List.append_assoc, List.drop_left]; rfl⟩
    · split
      · exact ⟨_, by simp only [newEvents, List.append_assoc, List.drop_left]; rfl⟩
      · split <;> exact ⟨_, by simp only [newEvents, List.append_assoc, List.drop_left]; rfl⟩
  · intro q hq1 hq2
    rw [MakeJobObject_cases env p w _ _ _ _ _ _ _ _ _ rfl rfl rfl rfl rfl rfl rfl rfl rfl,
      MakeJobObject_cases env q w _ _ _ _ _ _ _ _ _ rfl rfl rfl rfl rfl rfl rfl rfl rfl,
      hq1, hq2]
    split
    · exact ⟨rfl, rfl, rfl⟩
    · split
      · exact ⟨rfl, rfl, rfl⟩
      · split <;> exact ⟨rfl, rfl, rfl⟩
  · intro hok
    have h1 := MakeJobObject_ok env p w limit1 limit2 hlimit1 hlimit2 hok
    refine ⟨by rw [h1], by rw [h1]; simp [newEvents], ?_⟩
    intro hok2
    have h2 := MakeJobObject_ok env (MakeJobObject env p w).policy (MakeJobObject env p w).world
      limit1 limit2 (by rw [MakeJobObject_policy]; exact hlimit1)
      (by rw [MakeJobObject_policy]; exact hlimit2) hok2
    have hnext : (MakeJobObject env p w).world.next = w.next + 1 := by rw [h1]
    rw [h2, hnext]
    refine ⟨rfl, ?_, by simp [newEvents]⟩
    rw [h1]
    simp

theorem MakeJobObject_fresh_and_configured_witness :
    firstJob.rc = ResultCode.WINC_OK ∧ firstJob.out = some ⟨0⟩ ∧
    (MakeJobObject envOk firstJob.policy firstJob.world).rc = ResultCode.WINC_OK ∧
    (MakeJobObject envOk firstJob.policy firstJob.world).out = some ⟨1⟩ ∧
    (firstJob.rc = ResultCode.WINC_OK →
      firstJob.out = some ⟨0⟩ ∧
      newEvents world0 firstJob.world
        = [Event.new_JobObject ⟨0⟩,
           Event.JobObject_Init ⟨0⟩ ResultCode.WINC_OK,
           Event.JobObject_SetBasicLimit ⟨0⟩
             { JOBOBJECT_EXTENDED_LIMIT_INFORMATION.zero with
               BasicLimitInformation :=
                 { JOBOBJECT_EXTENDED_LIMIT_INFORMATION.zero.BasicLimitInformation with
                   LimitFlags := 6 } }
             ResultCode.WINC_OK,
           Event.JobObject_SetUILimit ⟨0⟩ { UIRestrictionsClass := 9 } ResultCode.WINC_OK] ∧
      ((MakeJobObject envOk firstJob.policy firstJob.world).rc = ResultCode.WINC_OK →
        (MakeJobObject envOk firstJob.policy firstJob.world).out = some ⟨0 + 1⟩ ∧
        (MakeJobObject envOk firstJob.policy firstJob.world).out ≠ firstJob.out ∧
        newEvents firstJob.world (MakeJobObject envOk firstJob.policy firstJob.world).world
          = [Event.new_JobObject ⟨0 + 1⟩,
             Event.JobObject_Init ⟨0 + 1⟩ ResultCode.WINC_OK,
             Event.JobObject_SetBasicLimit ⟨0 + 1⟩
               { JOBOBJECT_EXTENDED_LIMIT_INFORMATION.zero with
                 BasicLimitInformation :=
                   { JOBOBJECT_EXTENDED_LIMIT_INFORMATION.zero.BasicLimitInformation with
                     LimitFlags := 6 } }
               ResultCode.WINC_OK,
             Event.JobObject_SetUILimit ⟨0 + 1⟩ { UIRestrictionsClass := 9 }
               ResultCode.WINC_OK])) :=
  ⟨by decide, by decide, by decide, by decide,
   (MakeJobObject_fresh_and_configured envOk policyLimits world0 _ _ rfl rfl).2.2.2⟩


theorem budget_eq_of_same (p q : Policy) (w v : World)
    (h1 : q.default_desktop_ = p.default_desktop_)
    (h2 : v.trace.countP Event.isNewDefaultDesktop = w.trace.countP Event.isNewDefaultDesktop) :
    defaultDesktopBudget (q, v) = defaultDesktopBudget (p, w) := by
  simp only [defaultDesktopBudget, h1, h2]

theorem GetLogon_default_desktop (env : Env) (p : Policy) (w : World) :
    (GetLogon env p w).policy.default_desktop_ = p.default_desktop_ ∧
    (GetLogon env p w).world.trace.countP Event.isNewDefaultDesktop
      = w.trace.countP Event.isNewDefaultDesktop := by
  constructor
  · rcases GetLogon_policy_cases env p w with hp | ⟨-, l, -, hp⟩ <;> rw [hp]
  · unfold GetLogon
    cases p.logon_ with
    | some l => rfl
    | none =>
      simp only
      split <;>
        simp [World.emit, World.alloc, List.countP_append, Event.isNewDefaultDesktop]

theorem release_default_desktop (o1 : Option Logon) (o2 : Option HANDLE)
    (o3 : Option AlternateDesktop) (w : World) :
    (release_logon o1 w).trace.countP Event.isNewDefaultDesktop
      = w.trace.countP Event.isNewDefaultDesktop ∧
    (release_restricted_token o2 w).trace.countP Event.isNewDefaultDesktop
      = w.trace.countP Event.isNewDefaultDesktop ∧
    (release_alternate_desktop o3 w).trace.countP Event.isNewDefaultDesktop
      = w.trace.countP Event.isNewDefaultDesktop := by
  refine ⟨?_, ?_, ?_⟩
  · cases o1 <;>
      simp [release_logon, World.emit, List.countP_append, Event.isNewDefaultDesktop]
  · cases o2 <;>
      simp [release_restricted_token, World.emit, List.countP_append, Event.isNewDefaultDesktop]
  · cases o3 <;>
      simp [release_alternate_desktop, World.emit, List.countP_append,
        Event.isNewDefaultDesktop]

theorem GetRestrictedToken_default_desktop (env : Env) (p : Policy) (w : World) :
    (GetRestrictedToken env p w).policy.default_desktop_ = p.default_desktop_ ∧
    (GetRestrictedToken env p w).world.trace.countP Event.isNewDefaultDesktop
      = w.trace.countP Event.isNewDefaultDesktop := by
  obtain ⟨hg1, hg2⟩ := GetLogon_default_desktop env p w
  cases hc : p.restricted_token_ with
  | some token =>
    rw [GetRestrictedToken_cached env p w token hc]
    exact ⟨rfl, rfl⟩
  | none =>
    rcases GetRestrictedToken_uncached env p w hc with ⟨-, heq⟩ | ⟨l, -, -, -, hcase⟩
    · rw [heq]
      exact ⟨hg1, hg2⟩
    · rcases hcase with ⟨-, heq⟩ | ⟨-, heq⟩ <;>
      · rw [heq]
        refine ⟨rfl, ?_⟩
        simp only [World.emit, List.countP_append, hg2, filterEvent]
        simp [Event.isNewDefaultDesktop]

theorem MakeJobObject_default_desktop (env : Env) (p : Policy) (w : World) :
    (MakeJobObject env p w).world.trace.countP Event.isNewDefaultDesktop
      = w.trace.countP Event.isNewDefaultDesktop := by
  obtain ⟨job, l1, l2, tr2, tr3, rc1, rc2, rc3, hjob, htr2, htr3, hc⟩ :=
    MakeJobObject_cases_exists env p w
  subst hjob htr3 htr2
  rw [hc]
  split
  · simp [List.countP_append, Event.isNewDefaultDesktop]
  · split
    · simp [List.countP_append, Event.isNewDefaultDesktop]
    · split <;> simp [List.countP_append, Event.isNewDefaultDesktop]

theorem GetDesktop_shared (env : Env) (p : Policy) (w : World)
    (hmode : p.use_desktop_ = false) :
    (∀ d, p.default_desktop_ = some d →
      GetDesktop env p w = ⟨ResultCode.WINC_OK, some (Desktop.ofDefault d), p, w⟩) ∧
    (p.default_desktop_ = none →
      GetDesktop env p w
        = ⟨ResultCode.WINC_OK, some (Desktop.ofDefault ⟨w.next⟩),
            { p with default_desktop_ := some ⟨w.next⟩ },
            ⟨w.trace ++ [Event.new_DefaultDesktop ⟨w.next⟩], w.next + 1⟩⟩) := by
  constructor
  · intro d hd
    simp [GetDesktop, hmode, hd]
  · intro hd
    simp [GetDesktop, hmode, hd, World.emit, World.alloc]

theorem GetDesktop_isolated_default_desktop (env : Env) (p : Policy) (w : World)
    (hmode : p.use_desktop_ = true) :
    (GetDesktop env p w).policy.default_desktop_ = p.default_desktop_ ∧
    (GetDesktop env p w).world.trace.countP Event.isNewDefaultDesktop
      = w.trace.countP Event.isNewDefaultDesktop := by
  obtain ⟨hg1, hg2⟩ := GetLogon_default_desktop env p w
  cases ha : p.alternate_desktop_ with
  | some d =>
    rw [GetDesktop_cached_alternate env p w d hmode ha]
    exact ⟨rfl, rfl⟩
  | none =>
    by_cases hrc : (GetLogon env p w).rc = ResultCode.WINC_OK
    · obtain ⟨l, hout, -⟩ := GetLogon_ok env p w hrc
      rw [GetDesktop_isolated env p w l _ _ _ _ _ _ _ hmode ha hout rfl rfl rfl rfl rfl rfl rfl]
      split
      · exact ⟨hg1, by simp [List.countP_append, Event.isNewDefaultDesktop, hg2]⟩
      · split
        · exact ⟨hg1, by simp [List.countP_append, Event.isNewDefaultDesktop, hg2]⟩
        · split
          · exact ⟨hg1, by simp [List.countP_append, Event.isNewDefaultDesktop, hg2]⟩
          · exact ⟨hg1, by simp [List.countP_append, Event.isNewDefaultDesktop, hg2]⟩
    · rw [GetDesktop_isolated_logon_fail env p w hmode ha hrc]
      exact ⟨hg1, hg2⟩

/-- No call makes the budget of default-desktop constructions grow. -/
theorem step_budget (env : Env) (op : Op) (s : Policy × World) :
    defaultDesktopBudget (step env op s) ≤ defaultDesktopBudget s := by
  cases op with
  | GetLogon =>
    exact le_of_eq (budget_eq_of_same _ _ _ _ (GetLogon_default_desktop env s.1 s.2).1
      (GetLogon_default_desktop env s.1 s.2).2)
  | SetLogon l =>
    refine le_of_eq (budget_eq_of_same s.1 _ s.2 _ rfl ?_)
    show (SetLogon l s.1 s.2).2.trace.countP Event.isNewDefaultDesktop
      = s.2.trace.countP Event.isNewDefaultDesktop
    unfold SetLogon
    rw [(release_default_desktop none none _ _).2.2, (release_default_desktop none _ none _).2.1,
      (release_default_desktop _ none none _).1]
  | AddRestrictSid sid =>
    exact le_of_eq (budget_eq_of_same s.1 _ s.2 _ rfl
      (release_default_desktop none _ none _).2.1)
  | RemoveRestrictSid sid =>
    exact le_of_eq (budget_eq_of_same s.1 _ s.2 _ rfl
      (release_default_desktop none _ none _).2.1)
  | GetRestrictedToken =>
    exact le_of_eq (budget_eq_of_same _ _ _ _ (GetRestrictedToken_default_desktop env s.1 s.2).1
      (GetRestrictedToken_default_desktop env s.1 s.2).2)
  | GetDesktop =>
    cases hm : s.1.use_desktop_ with
    | true =>
      exact le_of_eq (budget_eq_of_same _ _ _ _
        (GetDesktop_isolated_default_desktop env s.1 s.2 hm).1
        (GetDesktop_isolated_default_desktop env s.1 s.2 hm).2)
    | false =>
      cases hd : s.1.default_desktop_ with
      | some d =>
        simp only [step]
        rw [(GetDesktop_shared env s.1 s.2 hm).1 d hd]
      | none =>
        simp only [step]
        rw [(GetDesktop_shared env s.1 s.2 hm).2 hd]
        simp [defaultDesktopBudget, hd, List.countP_append, Event.isNewDefaultDesktop]
  | MakeJobObject =>
    refine le_of_eq (budget_eq_of_same s.1 _ s.2 _ ?_ (MakeJobObject_default_desktop env s.1 s.2))
    show (MakeJobObject env s.1 s.2).policy.default_desktop_ = s.1.default_desktop_
    rw [MakeJobObject_policy]

theorem run_budget (env : Env) :
    ∀ (ops : List Op) (s : Policy × World),
      defaultDesktopBudget (run env ops s) ≤ defaultDesktopBudget s := by
  intro ops
  induction ops with
  | nil => intro s; exact le_refl _
  | cons op ops ih =>
    intro s
    simp only [run, List.foldl_cons]
    exact le_trans (ih (step env op s)) (step_budget env op s)

theorem run_trace (env : Env) :
    ∀ (ops : List Op) (s : Policy × World), ∃ ext, (run env ops s).2.trace = s.2.trace ++ ext := by
  intro ops
  induction ops with
  | nil => intro s; exact ⟨[], by simp [run]⟩
  | cons op ops ih =>
    intro s
    simp only [run, List.foldl_cons]
    obtain ⟨e1, he1⟩ := step_trace env op s
    obtain ⟨e2, he2⟩ := ih (step env op s)
    exact ⟨e1 ++ e2, by rw [← List.append_assoc, ← he1]; exact he2⟩

/-- C15: in shared mode `GetDesktop` always returns `WINC_OK` and the default
desktop: the cached one, with no event at all, when there is one, and a newly
constructed one, which it caches, when there is none.  The only event it can
append is that construction (so no `Init`, `FilterToken` or `GrantAccess`
call), and `logon_`, `restricted_token_`, `restricted_sids_` and
`alternate_desktop_` keep their values.  Over any sequence of calls on the
Policy at most one default desktop is constructed, and none when one is
cached at the start (I3). -/
theorem GetDesktop_shared_mode (env : Env) (p : Policy) (w : World)
    (hmode : p.use_desktop_ = false) :
    (GetDesktop env p w).rc = ResultCode.WINC_OK ∧
    (∀ d, p.default_desktop_ = some d →
      GetDesktop env p w = ⟨ResultCode.WINC_OK, some (Desktop.ofDefault d), p, w⟩) ∧
    (p.default_desktop_ = none →
      GetDesktop env p w
        = ⟨ResultCode.WINC_OK, some (Desktop.ofDefault ⟨w.next⟩),
            { p with default_desktop_ := some ⟨w.next⟩ },
            ⟨w.trace ++ [Event.new_DefaultDesktop ⟨w.next⟩], w.next + 1⟩⟩) ∧
    (GetDesktop env p w).out
      = (GetDesktop env p w).policy.default_desktop_.map Desktop.ofDefault ∧
    (∀ e ∈ newEvents w (GetDesktop env p w).world,
      e.isLogonInit = false ∧ e.isFilterToken = false ∧ e.isGrantAccess = false) ∧
    (GetDesktop env p w).policy.logon_ = p.logon_ ∧
    (GetDesktop env p w).policy.restricted_token_ = p.restricted_token_ ∧
    (GetDesktop env p w).policy.restricted_sids_ = p.restricted_sids_ ∧
    (GetDesktop env p w).policy.alternate_desktop_ = p.alternate_desktop_ ∧
    (∀ ops : List Op,
      (newEvents w (run env ops (p, w)).2).countP Event.isNewDefaultDesktop ≤ 1 ∧
      (p.default_desktop_ ≠ none →
        (newEvents w (run env ops (p, w)).2).countP Event.isNewDefaultDesktop = 0)) := by
  obtain ⟨hsome, hnone⟩ := GetDesktop_shared env p w hmode
  refine ⟨GetDesktop_shared_ok env p w hmode, hsome, hnone, ?_, ?_, ?_, ?_, ?_, ?_, ?_⟩
  · cases hd : p.default_desktop_ with
    | some d => rw [hsome d hd]; simp [hd]
    | none => rw [hnone hd]; rfl
  · cases hd : p.default_desktop_ with
    | some d => rw [hsome d hd]; simp [newEvents]
    | none =>
      rw [hnone hd]
      simp [newEvents, Event.isLogonInit, Event.isFilterToken, Event.isGrantAccess]
  · cases hd : p.default_desktop_ with
    | some d => rw [hsome d hd]
    | none => rw [hnone hd]
  · cases hd : p.default_desktop_ with
    | some d => rw [hsome d hd]
    | none => rw [hnone hd]
  · cases hd : p.default_desktop_ with
    | some d => rw [hsome d hd]
    | none => rw [hnone hd]
  · cases hd : p.default_desktop_ with
    | some d => rw [hsome d hd]
    | none => rw [hnone hd]
  · intro ops
    obtain ⟨ext, hext⟩ := run_trace env ops (p, w)
    have hb := run_budget env ops (p, w)
    have hnew : newEvents w (run env ops (p, w)).2 = ext := by simp [newEvents, hext]
    simp only [defaultDesktopBudget, hext, List.countP_append] at hb
    rw [hnew]
    constructor
    · have : (if p.default_desktop_ = none then 1 else 0) ≤ 1 := by split <;> omega
      omega
    · intro hne
      rw [if_neg hne] at hb
      omega

theorem GetDesktop_shared_mode_witness :
    policy0.use_desktop_ = false ∧
    (GetDesktop envOk policy0 world0).rc = ResultCode.WINC_OK ∧
    (∀ ops : List Op,
      (newEvents world0 (run envOk ops (policy0, world0)).2).countP Event.isNewDefaultDesktop
        ≤ 1 ∧
      (policy0.default_desktop_ ≠ none →
        (newEvents world0 (run envOk ops (policy0, world0)).2).countP
          Event.isNewDefaultDesktop = 0)) ∧
    (newEvents world0
        (run envOk [Op.GetDesktop, Op.SetLogon (some ⟨40⟩), Op.GetDesktop, Op.GetDesktop]
          (policy0, world0)).2).countP Event.isNewDefaultDesktop = 1 :=
  ⟨rfl, (GetDesktop_shared_mode envOk policy0 world0 rfl).1,
   (GetDesktop_shared_mode envOk policy0 world0 rfl).2.2.2.2.2.2.2.2.2, by decide⟩

end winc
